import Mathlib

/-!
# Navigation / camera core of the 3D-VR architecture viewer

Shallow embedding of the per-frame navigation code of
`src/Pages/VRScene.js` (free-roam viewer) and `src/Pages/Page.js`
(guided-view variant).

Conventions of the embedding.

* JavaScript numbers are idealised as elements of a linearly ordered field `K`
  (no rounding, no NaN).  `Math.sqrt` is a parameter `sqrt : K → K`, so every
  definition is computable and can be run at `K = ℚ` with `Rat.sqrt`, or read
  at `K = ℝ` with `Real.sqrt`.
* React state and refs are explicit state; a `useFrame` callback is a function
  from the state before the frame to the state after it.
* `THREE.Vector3` methods are modelled after the three.js sources.
-/

namespace VRNav

/-! ## THREE.Vector3 -/

/-- Model of `THREE.Vector3`. -/
structure Vector3 (K : Type) where
  x : K
  y : K
  z : K
deriving DecidableEq, Repr

namespace Vector3

variable {K : Type} [LinearOrderedField K]

/-- Model of `new THREE.Vector3()`. -/
def zero : Vector3 K := ⟨0, 0, 0⟩

/-- Model of `a.add(b)`. -/
def add (a b : Vector3 K) : Vector3 K := ⟨a.x + b.x, a.y + b.y, a.z + b.z⟩

/-- Model of `a.sub(b)`. -/
def sub (a b : Vector3 K) : Vector3 K := ⟨a.x - b.x, a.y - b.y, a.z - b.z⟩

/-- Model of `a.multiplyScalar(s)`. -/
def multiplyScalar (a : Vector3 K) (s : K) : Vector3 K := ⟨a.x * s, a.y * s, a.z * s⟩

/-- Model of `a.divideScalar(s)`, which three.js defines as `multiplyScalar(1 / s)`. -/
def divideScalar (a : Vector3 K) (s : K) : Vector3 K := a.multiplyScalar (1 / s)

/-- Model of `a.addScaledVector(v, s)`. -/
def addScaledVector (a v : Vector3 K) (s : K) : Vector3 K :=
  ⟨a.x + v.x * s, a.y + v.y * s, a.z + v.z * s⟩

/-- Model of `a.lengthSq()`. -/
def lengthSq (a : Vector3 K) : K := a.x * a.x + a.y * a.y + a.z * a.z

/-- Model of `a.length()`, that is `Math.sqrt(x*x + y*y + z*z)`. -/
def length (sqrt : K → K) (a : Vector3 K) : K := sqrt a.lengthSq

/-- Model of `a.normalize()`, that is `divideScalar(length() || 1)`. -/
def normalize (sqrt : K → K) (a : Vector3 K) : Vector3 K :=
  a.divideScalar (if a.length sqrt = 0 then 1 else a.length sqrt)

/-- Model of `a.distanceToSquared(b)`. -/
def distanceToSquared (a b : Vector3 K) : K :=
  (a.x - b.x) * (a.x - b.x) + (a.y - b.y) * (a.y - b.y) + (a.z - b.z) * (a.z - b.z)

/-- Model of `a.distanceTo(b)`, that is `Math.sqrt(distanceToSquared(b))`. -/
def distanceTo (sqrt : K → K) (a b : Vector3 K) : K := sqrt (a.distanceToSquared b)

/-- Model of `r.crossVectors(a, b)`. -/
def crossVectors (a b : Vector3 K) : Vector3 K :=
  ⟨a.y * b.z - a.z * b.y, a.z * b.x - a.x * b.z, a.x * b.y - a.y * b.x⟩

/-- Model of `r.lerpVectors(v1, v2, alpha)`. -/
def lerpVectors (v1 v2 : Vector3 K) (alpha : K) : Vector3 K :=
  ⟨v1.x + (v2.x - v1.x) * alpha, v1.y + (v2.y - v1.y) * alpha, v1.z + (v2.z - v1.z) * alpha⟩

end Vector3

/-! ## Input Sampler: `useKeyboardControls` (identical in both source files) -/

/-- The `movement` state of `useKeyboardControls`. -/
structure Movement where
  forward : Bool
  backward : Bool
  left : Bool
  right : Bool
deriving DecidableEq, Repr

/-- Initial value passed to `useState` in `useKeyboardControls`. -/
def Movement.initial : Movement := ⟨false, false, false, false⟩

/-- Model of `handleKeyDown`: the `switch (e.code)` of the `keydown` listener. -/
def handleKeyDown (m : Movement) (code : String) : Movement :=
  if code = "KeyW" ∨ code = "ArrowUp" then { m with forward := true }
  else if code = "KeyS" ∨ code = "ArrowDown" then { m with backward := true }
  else if code = "KeyA" ∨ code = "ArrowLeft" then { m with left := true }
  else if code = "KeyD" ∨ code = "ArrowRight" then { m with right := true }
  else m

/-- Model of `handleKeyUp`: the `switch (e.code)` of the `keyup` listener. -/
def handleKeyUp (m : Movement) (code : String) : Movement :=
  if code = "KeyW" ∨ code = "ArrowUp" then { m with forward := false }
  else if code = "KeyS" ∨ code = "ArrowDown" then { m with backward := false }
  else if code = "KeyA" ∨ code = "ArrowLeft" then { m with left := false }
  else if code = "KeyD" ∨ code = "ArrowRight" then { m with right := false }
  else m

/-- A keyboard event delivered to `document`: `keydown` (`down = true`) or `keyup`. -/
structure KeyEvent where
  down : Bool
  code : String
deriving DecidableEq, Repr

/-- Dispatch of one keyboard event to the listener registered for its type. -/
def applyKeyEvent (m : Movement) (e : KeyEvent) : Movement :=
  if e.down then handleKeyDown m e.code else handleKeyUp m e.code

/-- The `movement` state after a sequence of keyboard events, starting from `m`. -/
def applyKeyEvents (m : Movement) (es : List KeyEvent) : Movement :=
  es.foldl applyKeyEvent m

/-- The codes the two listeners recognise. -/
def movementKeys : List String :=
  ["KeyW", "ArrowUp", "KeyS", "ArrowDown", "KeyA", "ArrowLeft", "KeyD", "ArrowRight"]

/-- A key is held after a sequence of events when its most recent event is a key-down. -/
def isHeld (es : List KeyEvent) (code : String) : Bool :=
  match es.reverse.find? (fun e => decide (e.code = code)) with
  | some e => e.down
  | none => false

/-- Whether the most recent event whose code is one of `codes` is a key-down (`false` when
there is no such event). -/
def lastDown (codes : List String) (es : List KeyEvent) : Bool :=
  match es.reverse.find? (fun e => decide (e.code ∈ codes)) with
  | some e => e.down
  | none => false

/-! ## Collision Probe and Locomotion Controller: `PlayerMovement` -/

/-- The optional collidable handle `collidableRef.current`, seen through
`collisionRaycaster.intersectObject(collidableRef.current, true)`: for a ray origin and a
ray direction it gives the distances of the intersections, nearest first (three.js sorts
the intersections by distance), so that `intersects[0]` is the head of the list. -/
abbrev Collidable (K : Type) := Vector3 K → Vector3 K → List K

section Locomotion

variable {K : Type} [LinearOrderedField K]

/-- The constant `playerSpeed = 5.0` of `PlayerMovement`. -/
def playerSpeed : K := 5

/-- The constant `collisionDistance = 1.0` of `PlayerMovement`. -/
def collisionDistance : K := 1

/-- The vector `forward` of `PlayerMovement`: `camera.getWorldDirection(forward)`, then
`forward.y = 0; forward.normalize()`.  The camera orientation enters through the world
direction it yields. -/
def horizontalForward (sqrt : K → K) (worldDirection : Vector3 K) : Vector3 K :=
  Vector3.normalize sqrt ⟨worldDirection.x, 0, worldDirection.z⟩

/-- The vector `right` of `PlayerMovement`:
`right.crossVectors(new THREE.Vector3(0, 1, 0), forward).normalize()`. -/
def rightVector (sqrt : K → K) (forward : Vector3 K) : Vector3 K :=
  Vector3.normalize sqrt (Vector3.crossVectors ⟨0, 1, 0⟩ forward)

/-- The vector `moveDirection` of `PlayerMovement` after the four `if (movement.…)`
statements and before it is normalised. -/
def moveDirection (sqrt : K → K) (movement : Movement) (worldDirection : Vector3 K) :
    Vector3 K :=
  let forward := horizontalForward sqrt worldDirection
  let right := rightVector sqrt forward
  let d0 : Vector3 K := Vector3.zero
  let d1 := if movement.forward then d0.add forward else d0
  let d2 := if movement.backward then d1.sub forward else d1
  let d3 := if movement.left then d2.sub right else d2
  if movement.right then d3.add right else d3

/-- The `movement` state in which only "forward" is held. -/
def onlyForward : Movement := ⟨true, false, false, false⟩

/-- The direction handed to the collision probe and to `addScaledVector`: `moveDirection`
after `moveDirection.normalize()`. -/
def probeDirection (sqrt : K → K) (movement : Movement) (worldDirection : Vector3 K) :
    Vector3 K :=
  (moveDirection sqrt movement worldDirection).normalize sqrt

/-- The ray origin of the collision probe: `camera.position.clone()` with `y -= 0.5`. -/
def rayOrigin (position : Vector3 K) : Vector3 K :=
  ⟨position.x, position.y - 1 / 2, position.z⟩

/-- The flag `canMove` of `PlayerMovement` (VRScene.js): `true` unless the collidable is
present, the ray hits it and `intersects[0].distance < collisionDistance`. -/
def canMove (collidable : Option (Collidable K)) (position direction : Vector3 K) : Bool :=
  match collidable with
  | none => true
  | some c =>
    match c (rayOrigin position) direction with
    | [] => true
    | distance :: _ => if distance < collisionDistance then false else true

end Locomotion

namespace VRScene

variable {K : Type} [LinearOrderedField K]

/-- The `useFrame` callback of `PlayerMovement` in VRScene.js, as a function from the camera
position before the callback to the camera position after it. -/
def PlayerMovement.useFrame (sqrt : K → K) (isVRMode isLocked : Bool) (movement : Movement)
    (collidable : Option (Collidable K)) (worldDirection : Vector3 K) (delta : K)
    (position : Vector3 K) : Vector3 K :=
  if isVRMode then position
  else if !isLocked then position
  else
    let direction := moveDirection sqrt movement worldDirection
    if 0 < direction.length sqrt then
      let direction := direction.normalize sqrt
      if canMove collidable position direction then
        position.addScaledVector direction (playerSpeed * delta)
      else position
    else position

end VRScene

namespace Page

variable {K : Type} [LinearOrderedField K]

/-- The `useFrame` callback of `PlayerMovement` in Page.js.  `controlsIsLocked` is the value of
`state.controls?.isLocked`: `none` when it is undefined. -/
def PlayerMovement.useFrame (sqrt : K → K) (isVRMode : Bool) (controlsIsLocked : Option Bool)
    (movement : Movement) (worldDirection : Vector3 K) (delta : K)
    (position : Vector3 K) : Vector3 K :=
  if isVRMode || !(controlsIsLocked.getD false) then position
  else
    let direction := moveDirection sqrt movement worldDirection
    if 0 < direction.length sqrt then
      position.addScaledVector (direction.normalize sqrt) (playerSpeed * delta)
    else position

end Page

/-! ## Teleport Transit Animator: `CameraController` -/

namespace VRScene

variable {K : Type} [LinearOrderedField K]

/-- The ref `moveState` of `CameraController` (VRScene.js). -/
structure MoveState (K : Type) where
  start : Vector3 K
  end_ : Vector3 K
  duration : K
  progress : K
deriving DecidableEq, Repr

/-- The refs `isMoving` and `moveState` of `CameraController` (VRScene.js). -/
structure CameraController (K : Type) where
  isMoving : Bool
  moveState : MoveState K
deriving DecidableEq, Repr

/-- The refs of a freshly mounted `CameraController`. -/
def CameraController.initial : CameraController K :=
  ⟨false, ⟨Vector3.zero, Vector3.zero, 0, 0⟩⟩

/-- What one `useFrame` callback of `CameraController` leaves behind: the camera position, the
refs, and whether `onMoveComplete` was called. -/
structure CameraFrame (K : Type) where
  position : Vector3 K
  controller : CameraController K
  moveComplete : Bool
deriving DecidableEq, Repr

/-- The block guarded by `if (!isMoving.current)`: the `moveState` written on entry. -/
def CameraController.beginMove (sqrt : K → K) (position targetPosition : Vector3 K) :
    MoveState K :=
  let start := position
  let end_ : Vector3 K := ⟨targetPosition.x, position.y, targetPosition.z⟩
  let distance := start.distanceTo sqrt end_
  let speed : K := 8
  { start := start, end_ := end_,
    duration := if 0 < distance then distance / speed else 0,
    progress := 0 }

/-- The `useFrame` callback of `CameraController` in VRScene.js. -/
def CameraController.useFrame (sqrt : K → K) (targetPosition : Option (Vector3 K)) (delta : K)
    (position : Vector3 K) (c : CameraController K) : CameraFrame K :=
  match targetPosition with
  | none => ⟨position, c, false⟩
  | some target =>
    let ms := if c.isMoving then c.moveState else CameraController.beginMove sqrt position target
    let progress := if ms.duration ≤ 1 / 100 then 1 else ms.progress + delta / ms.duration
    let ms := { ms with progress := progress }
    if 1 ≤ progress then ⟨ms.end_, ⟨false, ms⟩, true⟩
    else ⟨Vector3.lerpVectors ms.start ms.end_ progress, ⟨true, ms⟩, false⟩

/-- What a rendered frame reads besides the scene state: the props and React state of the
frame, the camera orientation (as the world direction it yields) and the frame delta. -/
structure FrameInput (K : Type) where
  isVRMode : Bool
  isLocked : Bool
  movement : Movement
  collidable : Option (Collidable K)
  worldDirection : Vector3 K
  delta : K

/-- The part of the state of `Scene` (VRScene.js) the navigation core works on: the camera
position, the refs of `CameraController` and the React state `teleportTarget`. -/
structure Scene (K : Type) where
  position : Vector3 K
  controller : CameraController K
  teleportTarget : Option (Vector3 K)
deriving DecidableEq, Repr

/-- The call `setTeleportTarget(point)` made by the click handler. -/
def Scene.setTeleportTarget (s : Scene K) (target : Option (Vector3 K)) : Scene K :=
  { s with teleportTarget := target }

/-- One rendered frame of `Scene` (VRScene.js).  The `useFrame` callbacks run in the order in
which the components are mounted, `CameraController` before `PlayerMovement`;
`onMoveComplete` is `() => setTeleportTarget(null)`. -/
def Scene.frame (sqrt : K → K) (s : Scene K) (i : FrameInput K) : Scene K :=
  let r := CameraController.useFrame sqrt s.teleportTarget i.delta s.position s.controller
  { position := PlayerMovement.useFrame sqrt i.isVRMode i.isLocked i.movement i.collidable
      i.worldDirection i.delta r.position,
    controller := r.controller,
    teleportTarget := if r.moveComplete then none else s.teleportTarget }

/-- A run of rendered frames. -/
def Scene.frames (sqrt : K → K) (s : Scene K) (is : List (FrameInput K)) : Scene K :=
  is.foldl (Scene.frame sqrt) s

/-- The camera position after a run of `useFrame` callbacks of `PlayerMovement` alone. -/
def PlayerMovement.frames (sqrt : K → K) (position : Vector3 K) (is : List (FrameInput K)) :
    Vector3 K :=
  is.foldl (fun p i => PlayerMovement.useFrame sqrt i.isVRMode i.isLocked i.movement
    i.collidable i.worldDirection i.delta p) position

/-- The frames of a run in which the pointer is Locked, VR is off and the held keys, the
collidable and the camera orientation stay the same, one frame per delta. -/
def heldFrames (movement : Movement) (collidable : Option (Collidable K))
    (worldDirection : Vector3 K) (deltas : List K) : List (FrameInput K) :=
  deltas.map (fun delta => ⟨false, true, movement, collidable, worldDirection, delta⟩)

end VRScene

namespace Page

variable {K : Type} [LinearOrderedField K]

/-- What a rendered frame of Page.js reads besides the camera position. -/
structure FrameInput (K : Type) where
  isVRMode : Bool
  controlsIsLocked : Option Bool
  movement : Movement
  worldDirection : Vector3 K
  delta : K

/-- The camera position after a run of `useFrame` callbacks of `PlayerMovement` (Page.js). -/
def PlayerMovement.frames (sqrt : K → K) (position : Vector3 K) (is : List (FrameInput K)) :
    Vector3 K :=
  is.foldl (fun p i => PlayerMovement.useFrame sqrt i.isVRMode i.controlsIsLocked i.movement
    i.worldDirection i.delta p) position

/-- The refs `isMoving`, `startPos` and `progress` of `CameraController` (Page.js). -/
structure CameraController (K : Type) where
  isMoving : Bool
  startPos : Vector3 K
  progress : K
deriving DecidableEq, Repr

/-- What one `useFrame` callback of `CameraController` (Page.js) leaves behind. -/
structure CameraFrame (K : Type) where
  position : Vector3 K
  controller : CameraController K
  moveComplete : Bool
deriving DecidableEq, Repr

/-- The `useFrame` callback of `CameraController` in Page.js, as far as the camera position
and the refs go (the `targetLookAt` branch only turns the camera). -/
def CameraController.useFrame (isVRMode : Bool) (targetPosition : Option (Vector3 K))
    (delta : K) (position : Vector3 K) (c : CameraController K) : CameraFrame K :=
  match targetPosition with
  | none => ⟨position, c, false⟩
  | some target =>
    if isVRMode then ⟨position, c, false⟩
    else
      let startPos := if c.isMoving then c.startPos else position
      let progress0 := if c.isMoving then c.progress else 0
      let progress := min (progress0 + delta * 2) 1
      ⟨Vector3.lerpVectors startPos target progress,
        ⟨if 1 ≤ progress then false else true, startPos, progress⟩,
        if 1 ≤ progress then true else false⟩

end Page

/-! ## Ground Reticle Resolver and the viewer around it: `TeleportReticle`, `Scene` -/

namespace VRScene

variable {K : Type} [LinearOrderedField K]

/-- The mesh behind `reticleRef.current`, as far as `TeleportReticle` writes it. -/
structure Reticle (K : Type) where
  visible : Bool
  position : Vector3 K
deriving DecidableEq, Repr

/-- What one `useFrame` callback of `TeleportReticle` leaves behind: the mesh and the ref
`currentReticlePos` of `Scene`, written through `onTeleportTargetUpdate`. -/
structure ReticleFrame (K : Type) where
  reticleRef : Option (Reticle K)
  currentReticlePos : Option (Vector3 K)
deriving DecidableEq, Repr

/-- The `useFrame` callback of `TeleportReticle`.  `ground` is `none` when
`scene.getObjectByName("Ground")` finds nothing, and otherwise the points of
`raycaster.intersectObject(ground)` for the ray through the screen centre, nearest first. -/
def TeleportReticle.useFrame (isLocked : Bool) (ground : Option (List (Vector3 K)))
    (reticleRef : Option (Reticle K)) (currentReticlePos : Option (Vector3 K)) :
    ReticleFrame K :=
  match reticleRef with
  | none => ⟨none, currentReticlePos⟩
  | some reticle =>
    if !isLocked then ⟨some { reticle with visible := false }, currentReticlePos⟩
    else
      match ground with
      | none => ⟨some reticle, currentReticlePos⟩
      | some [] => ⟨some { reticle with visible := false }, none⟩
      | some (point :: _) =>
        ⟨some ⟨true, ⟨point.x, point.y + 2 / 100, point.z⟩⟩, some point⟩

/-- What a rendered frame of the viewer reads from outside: the held keys, the collidable, the
camera orientation, the frame delta and the outcome of the screen-centre raycast. -/
structure ViewerFrame (K : Type) where
  movement : Movement
  collidable : Option (Collidable K)
  worldDirection : Vector3 K
  delta : K
  ground : Option (List (Vector3 K))

/-- The state of the free-roam viewer: the state of `Scene` the animator works on, the React
state `isVRMode` of `VRScene` and `isLocked` of `Scene`, the ref `currentReticlePos`, and the
mesh of `TeleportReticle` (`none` when that component is not mounted). -/
structure Viewer (K : Type) where
  scene : Scene K
  isVRMode : Bool
  isLocked : Bool
  currentReticlePos : Option (Vector3 K)
  reticleRef : Option (Reticle K)
deriving DecidableEq, Repr

/-- The viewer right after mounting, the camera at the start position: no request, VR off,
pointer Unlocked, no published point; `TeleportReticle` is mounted unless `isEditing`. -/
def Viewer.initial (isEditing : Bool) (startPosition : Vector3 K) : Viewer K :=
  { scene := ⟨startPosition, CameraController.initial, none⟩,
    isVRMode := false,
    isLocked := false,
    currentReticlePos := none,
    reticleRef := if isEditing then none else some ⟨true, Vector3.zero⟩ }

/-- The `mousedown` listener `handleMouseClick` of `Scene`. -/
def Viewer.handleMouseClick (v : Viewer K) : Viewer K :=
  if v.isLocked then
    match v.currentReticlePos with
    | some point => { v with scene := v.scene.setTeleportTarget (some point) }
    | none => v
  else v

/-- One rendered frame of the viewer: the callbacks of `CameraController`, `PlayerMovement`
and, when `!isEditing`, `TeleportReticle`, in the order in which `Scene` mounts them. -/
def Viewer.frame (sqrt : K → K) (isEditing : Bool) (v : Viewer K) (i : ViewerFrame K) :
    Viewer K :=
  let scene := Scene.frame sqrt v.scene
    ⟨v.isVRMode, v.isLocked, i.movement, i.collidable, i.worldDirection, i.delta⟩
  if isEditing then { v with scene := scene }
  else
    let r := TeleportReticle.useFrame v.isLocked i.ground v.reticleRef v.currentReticlePos
    { v with scene := scene, reticleRef := r.reticleRef,
             currentReticlePos := r.currentReticlePos }

/-- What happens to the viewer: `onLock` and `onUnlock` of `PointerLockControls`, the click on
"Enter VR", a `mousedown` on the window, a rendered frame. -/
inductive ViewerEvent (K : Type) where
  | lock : ViewerEvent K
  | unlock : ViewerEvent K
  | enterVR : ViewerEvent K
  | mouseDown : ViewerEvent K
  | frame : ViewerFrame K → ViewerEvent K

/-- The effect of one event.  `PointerLockControls` is mounted only when `!isVRMode`, the
"Enter VR" button only when `mode === 'view'`. -/
def Viewer.step (sqrt : K → K) (isEditing : Bool) (v : Viewer K) : ViewerEvent K → Viewer K
  | .lock => if v.isVRMode then v else { v with isLocked := true }
  | .unlock => if v.isVRMode then v else { v with isLocked := false }
  | .enterVR => if isEditing then v else { v with isVRMode := true }
  | .mouseDown => v.handleMouseClick
  | .frame i => v.frame sqrt isEditing i

/-- A run of events. -/
def Viewer.run (sqrt : K → K) (isEditing : Bool) (v : Viewer K) (es : List (ViewerEvent K)) :
    Viewer K :=
  es.foldl (Viewer.step sqrt isEditing) v

/-- Whether an event is `onLock` or `onUnlock`. -/
def ViewerEvent.isLockEvent : ViewerEvent K → Bool
  | .lock => true
  | .unlock => true
  | _ => false

/-- Whether an event is a `mousedown`. -/
def ViewerEvent.isMouseDown : ViewerEvent K → Bool
  | .mouseDown => true
  | _ => false

/-- Whether an event is a rendered frame. -/
def ViewerEvent.isFrame : ViewerEvent K → Bool
  | .frame _ => true
  | _ => false

/-- Whether an event is a frame in which a movement key is held. -/
def ViewerEvent.holdsKey : ViewerEvent K → Bool
  | .frame i => decide (i.movement ≠ Movement.initial)
  | _ => false

end VRScene

namespace VRScene

variable {K : Type} [LinearOrderedField K]

/-- What the animator reads of an event: the delta of a frame, as an input of `Scene.frame`
in which the lock state and everything only the Locomotion Controller reads are blanked. -/
def ViewerEvent.animatorInput : ViewerEvent K → Option (FrameInput K)
  | .frame i => some ⟨false, false, Movement.initial, none, Vector3.zero, i.delta⟩
  | _ => none

end VRScene

/-! ## Guided view: waypoints, proximity monitor and gaze (Page.js) -/

namespace Vector3

variable {K : Type} [LinearOrderedField K]

/-- Model of `a.lerp(v, alpha)`. -/
def lerp (a v : Vector3 K) (alpha : K) : Vector3 K :=
  ⟨a.x + (v.x - a.x) * alpha, a.y + (v.y - a.y) * alpha, a.z + (v.z - a.z) * alpha⟩

end Vector3

namespace Page

variable {K : Type} [LinearOrderedField K]

/-- An entry of the table `WAYPOINTS`. -/
structure Waypoint (K : Type) where
  position : Vector3 K
  target : Vector3 K
  name : String
deriving DecidableEq, Repr

/-- The table `WAYPOINTS` of Page.js. -/
def WAYPOINTS : List (Waypoint K) :=
  [ ⟨⟨5, 8 / 5, 5⟩, ⟨0, 0, 0⟩, "View Center"⟩,
    ⟨⟨-5, 8 / 5, -5⟩, ⟨5, 0, 5⟩, "View Building"⟩,
    ⟨⟨0, 8 / 5, 8⟩, ⟨0, 0, -8⟩, "Overview"⟩,
    ⟨⟨8, 8 / 5, 0⟩, ⟨-8, 0, 0⟩, "Side View"⟩ ]

/-- The state of `Scene` (Page.js) the navigation core works on: the camera position and
orientation (as the world direction it yields), the refs of `CameraController`, and the React
state `targetPosition`, `targetLookAt` and `activeWaypoint`. -/
structure Scene (K : Type) where
  position : Vector3 K
  worldDirection : Vector3 K
  controller : CameraController K
  targetPosition : Option (Vector3 K)
  targetLookAt : Option (Vector3 K)
  activeWaypoint : Option Nat
deriving DecidableEq, Repr

/-- The prop `isActive={activeWaypoint === index}` of a `WaypointMarker`. -/
def Scene.isActive (s : Scene K) (index : Nat) : Bool :=
  decide (s.activeWaypoint = some index)

/-- The interval callback `checkWaypoints`: one poll of the proximity monitor.  Every state
update of the loop is applied; the later one wins. -/
def Scene.checkWaypoints (sqrt : K → K) (isVRMode : Bool) (s : Scene K) : Scene K :=
  if isVRMode then s
  else
    (WAYPOINTS.enum).foldl (fun acc iw =>
      if s.position.distanceTo sqrt iw.2.position < 2 ∧ s.activeWaypoint ≠ some iw.1 then
        { acc with targetLookAt := some iw.2.target, activeWaypoint := some iw.1 }
      else acc) s

/-- The click handler `handleWaypointClick(waypoint, index)`. -/
def Scene.handleWaypointClick (isVRMode : Bool) (s : Scene K) (waypoint : Waypoint K)
    (index : Nat) : Scene K :=
  if isVRMode then s
  else { s with targetPosition := some waypoint.position,
                targetLookAt := some waypoint.target,
                activeWaypoint := some index }

/-- The click handler `handleGroundClick`; `intersect` is `event.intersections[0]`'s point,
`none` when there is no intersection. -/
def Scene.handleGroundClick (isVRMode : Bool) (s : Scene K) (intersect : Option (Vector3 K)) :
    Scene K :=
  if isVRMode then s
  else
    match intersect with
    | some point =>
      { s with targetPosition := some ⟨point.x, 8 / 5, point.z⟩,
               targetLookAt := none,
               activeWaypoint := none }
    | none => s

/-- The camera's world direction after the `useFrame` callback of `CameraController`
(Page.js).  Outside a transit, or without `targetLookAt`, the camera is not turned; inside,
`camera.lookAt(lookAtPoint)` leaves the camera looking from its position to `lookAtPoint`. -/
def CameraController.worldDirectionAfter (sqrt : K → K) (isVRMode : Bool)
    (targetPosition targetLookAt : Option (Vector3 K)) (delta : K)
    (position worldDirection : Vector3 K) (c : CameraController K) : Vector3 K :=
  match targetPosition with
  | none => worldDirection
  | some _ =>
    if isVRMode then worldDirection
    else
      match targetLookAt with
      | none => worldDirection
      | some look =>
        let r := CameraController.useFrame isVRMode targetPosition delta position c
        let targetDir := (look.sub r.position).normalize sqrt
        let lerpedDir := worldDirection.lerp targetDir (r.controller.progress * (1 / 10))
        let lookAtPoint := r.position.add (lerpedDir.multiplyScalar 10)
        (lookAtPoint.sub r.position).normalize sqrt

/-- What a rendered frame of Page.js reads from outside the scene state. -/
structure Tick (K : Type) where
  isVRMode : Bool
  controlsIsLocked : Option Bool
  movement : Movement
  delta : K
deriving DecidableEq, Repr

/-- One rendered frame of `Scene` (Page.js): the callbacks of `PlayerMovement` and
`CameraController`, in the order in which they are mounted; `onMoveComplete` sets
`targetPosition` and `targetLookAt` to null. -/
def Scene.frame (sqrt : K → K) (s : Scene K) (i : Tick K) : Scene K :=
  let p := PlayerMovement.useFrame sqrt i.isVRMode i.controlsIsLocked i.movement
    s.worldDirection i.delta s.position
  let r := CameraController.useFrame i.isVRMode s.targetPosition i.delta p s.controller
  { position := r.position,
    worldDirection := CameraController.worldDirectionAfter sqrt i.isVRMode s.targetPosition
      s.targetLookAt i.delta p s.worldDirection s.controller,
    controller := r.controller,
    targetPosition := if r.moveComplete then none else s.targetPosition,
    targetLookAt := if r.moveComplete then none else s.targetLookAt,
    activeWaypoint := s.activeWaypoint }

/-- A run of rendered frames of Page.js. -/
def Scene.frames (sqrt : K → K) (s : Scene K) (is : List (Tick K)) : Scene K :=
  is.foldl (Scene.frame sqrt) s

end Page

/-! ## Save and load of the model placement: `handleTriggerSave`, `handleSaveRoom`,
`UploadedModel` -/

/-- Position, rotation (Euler angles x, y, z) and scale of an object, or the three arrays of a
saved `modelTransform`. -/
structure Transform (K : Type) where
  position : Vector3 K
  rotation : Vector3 K
  scale : Vector3 K
deriving DecidableEq, Repr

/-- Model of `THREE.Box3`. -/
structure Box3 (K : Type) where
  min : Vector3 K
  max : Vector3 K
deriving DecidableEq, Repr

namespace Box3

variable {K : Type} [LinearOrderedField K]

/-- Model of `box.isEmpty()`. -/
def isEmpty (b : Box3 K) : Bool :=
  decide (b.max.x < b.min.x ∨ b.max.y < b.min.y ∨ b.max.z < b.min.z)

/-- Model of `box.getSize(target)`. -/
def getSize (b : Box3 K) : Vector3 K :=
  if b.isEmpty then ⟨0, 0, 0⟩ else b.max.sub b.min

/-- Model of `box.getCenter(target)`. -/
def getCenter (b : Box3 K) : Vector3 K :=
  if b.isEmpty then ⟨0, 0, 0⟩ else (b.min.add b.max).multiplyScalar (1 / 2)

end Box3

namespace VRScene

variable {K : Type} [LinearOrderedField K]

/-- The `cameraStart` part of a snapshot. -/
structure CameraStart (K : Type) where
  position : Vector3 K
  rotation : Vector3 K
deriving DecidableEq, Repr

/-- The snapshot `handleTriggerSave` hands to `onSaveScene`. -/
structure SceneData (K : Type) where
  modelTransform : Transform K
  cameraStart : CameraStart K
  thumbnail : String
deriving DecidableEq, Repr

/-- The `config` of a stored room, later the prop `savedData`: the snapshot without its
thumbnail. -/
structure Config (K : Type) where
  modelTransform : Transform K
  cameraStart : CameraStart K
deriving DecidableEq, Repr

/-- The constant `defaultTransform` of `Scene`. -/
def defaultTransform : Transform K := ⟨⟨0, 0, 0⟩, ⟨0, 0, 0⟩, ⟨1, 1, 1⟩⟩

/-- The function `handleTriggerSave` of `Scene`: the snapshot handed to `onSaveScene`, `none`
when `modelRef.current` or `onSaveScene` is missing.  `screenshot` is the captured image. -/
def handleTriggerSave (modelRef : Option (Transform K)) (onSaveScene : Bool)
    (cameraPosition cameraRotation : Vector3 K) (screenshot : String) :
    Option (SceneData K) :=
  match modelRef with
  | none => none
  | some model =>
    if onSaveScene then
      some { modelTransform := ⟨model.position, model.rotation, model.scale⟩,
             cameraStart := ⟨cameraPosition, cameraRotation⟩,
             thumbnail := screenshot }
    else none

/-- The prop `initialTransform` of `UploadedModel`:
`savedData?.modelTransform || defaultTransform`. -/
def initialTransform (savedData : Option (Config K)) : Transform K :=
  match savedData with
  | some config => config.modelTransform
  | none => defaultTransform

/-- The placement effect of `UploadedModel`: the transform of the model object after the
effect, from its transform before it, the bounding box `setFromObject(scene)` measures and
the prop `initialTransform`. -/
def UploadedModel.place (box : Box3 K) (initialTransform : Transform K) (model : Transform K) :
    Transform K :=
  if initialTransform.scale.x = 1 ∧ initialTransform.scale.y = 1 ∧
      initialTransform.scale.z = 1 then
    let size := box.getSize
    let center := box.getCenter
    let maxDim := max (max size.x size.y) size.z
    let scaleFactor : K := if 20 < maxDim then 20 / maxDim else 1
    let scaleFactor : K := if size.y * scaleFactor < 3 then 3 / size.y else scaleFactor
    { position := ⟨-center.x * scaleFactor, -box.min.y * scaleFactor + 1 / 20,
        -center.z * scaleFactor⟩,
      rotation := model.rotation,
      scale := ⟨scaleFactor, scaleFactor, scaleFactor⟩ }
  else
    { position := initialTransform.position,
      rotation := initialTransform.rotation,
      scale := initialTransform.scale }

/-- Loading a scene: the placement effect run on the freshly loaded model object (position
and rotation 0, scale 1) with the prop `savedData`. -/
def loadModel (box : Box3 K) (savedData : Option (Config K)) : Transform K :=
  UploadedModel.place box (initialTransform savedData) ⟨⟨0, 0, 0⟩, ⟨0, 0, 0⟩, ⟨1, 1, 1⟩⟩

end VRScene

namespace App

variable {K : Type} [LinearOrderedField K]

/-- The `config` that `handleSaveRoom` of App.js stores for a snapshot:
`const { thumbnail, ...restConfig } = sceneData`. -/
def handleSaveRoom (sceneData : VRScene.SceneData K) : VRScene.Config K :=
  ⟨sceneData.modelTransform, sceneData.cameraStart⟩

end App

namespace Page

variable {K : Type} [LinearOrderedField K]

/-- The loop body of `checkWaypoints` run over the indexed entries of the table in a given
order; `checkWaypoints` runs it over `WAYPOINTS.enum`, the order of `forEach`. -/
def Scene.pollOver (sqrt : K → K) (s : Scene K) (entries : List (Nat × Waypoint K)) :
    Scene K :=
  entries.foldl (fun acc iw =>
    if s.position.distanceTo sqrt iw.2.position < 2 ∧ s.activeWaypoint ≠ some iw.1 then
      { acc with targetLookAt := some iw.2.target, activeWaypoint := some iw.1 }
    else acc) s

end Page

/-! # Theorems -/

/-! ## Input Sampler -/

theorem applyKeyEvents_append (m : Movement) (es : List KeyEvent) (e : KeyEvent) :
    applyKeyEvents m (es ++ [e]) = applyKeyEvent (applyKeyEvents m es) e := by
  simp [applyKeyEvents, List.foldl_append]

theorem lastDown_append (codes : List String) (es : List KeyEvent) (e : KeyEvent) :
    lastDown codes (es ++ [e]) = if e.code ∈ codes then e.down else lastDown codes es := by
  unfold lastDown
  by_cases h : e.code ∈ codes <;> simp [List.find?_cons, h]

theorem applyKeyEvent_flags (m : Movement) (e : KeyEvent) :
    (applyKeyEvent m e).forward
        = (if e.code ∈ ["KeyW", "ArrowUp"] then e.down else m.forward) ∧
    (applyKeyEvent m e).backward
        = (if e.code ∈ ["KeyS", "ArrowDown"] then e.down else m.backward) ∧
    (applyKeyEvent m e).left
        = (if e.code ∈ ["KeyA", "ArrowLeft"] then e.down else m.left) ∧
    (applyKeyEvent m e).right
        = (if e.code ∈ ["KeyD", "ArrowRight"] then e.down else m.right) := by
  obtain ⟨d, c⟩ := e
  unfold applyKeyEvent handleKeyDown handleKeyUp
  simp only [List.mem_cons, List.mem_singleton, List.not_mem_nil, or_false]
  cases d <;> simp only [Bool.false_eq_true, if_true, if_false] <;> split_ifs <;>
    (try rcases ‹_ ∨ _› with rfl | rfl) <;> simp_all

/-- C9, as stated, fails: after key-down W, key-down ArrowUp, key-up W the key ArrowUp
(mapped to "forward") is still held, yet the `forward` flag is false. -/
theorem forward_cleared_while_arrowUp_held :
    isHeld [⟨true, "KeyW"⟩, ⟨true, "ArrowUp"⟩, ⟨false, "KeyW"⟩] "ArrowUp" = true ∧
    (applyKeyEvents Movement.initial
      [⟨true, "KeyW"⟩, ⟨true, "ArrowUp"⟩, ⟨false, "KeyW"⟩]).forward = false := by
  decide

/-- C9, amended: after every sequence of key events each flag of `movement` is true exactly
when the most recent event among the two keys mapped to its direction was a key-down; the
flag is last-write-wins per direction, so repeated key-downs do not toggle it. -/
theorem movement_reflects_last_event (es : List KeyEvent) :
    (applyKeyEvents Movement.initial es).forward = lastDown ["KeyW", "ArrowUp"] es ∧
    (applyKeyEvents Movement.initial es).backward = lastDown ["KeyS", "ArrowDown"] es ∧
    (applyKeyEvents Movement.initial es).left = lastDown ["KeyA", "ArrowLeft"] es ∧
    (applyKeyEvents Movement.initial es).right = lastDown ["KeyD", "ArrowRight"] es := by
  induction es using List.reverseRecOn with
  | nil => simp [applyKeyEvents, lastDown, Movement.initial]
  | append_singleton es e ih =>
    obtain ⟨h1, h2, h3, h4⟩ := ih
    obtain ⟨f1, f2, f3, f4⟩ := applyKeyEvent_flags (applyKeyEvents Movement.initial es) e
    rw [applyKeyEvents_append, lastDown_append, lastDown_append, lastDown_append,
      lastDown_append, f1, f2, f3, f4, h1, h2, h3, h4]
    exact ⟨rfl, rfl, rfl, rfl⟩

/-- C10: a key-down with a recognised code sets exactly the flag of its direction to true and
a key-up sets it to false, the other three flags being kept; a code that is not recognised
leaves the state as it is; applying an event twice is the same as applying it once. -/
theorem keyEvent_semantics (m : Movement) :
    (handleKeyDown m "KeyW" = { m with forward := true } ∧
      handleKeyDown m "ArrowUp" = { m with forward := true } ∧
      handleKeyDown m "KeyS" = { m with backward := true } ∧
      handleKeyDown m "ArrowDown" = { m with backward := true } ∧
      handleKeyDown m "KeyA" = { m with left := true } ∧
      handleKeyDown m "ArrowLeft" = { m with left := true } ∧
      handleKeyDown m "KeyD" = { m with right := true } ∧
      handleKeyDown m "ArrowRight" = { m with right := true }) ∧
    (handleKeyUp m "KeyW" = { m with forward := false } ∧
      handleKeyUp m "ArrowUp" = { m with forward := false } ∧
      handleKeyUp m "KeyS" = { m with backward := false } ∧
      handleKeyUp m "ArrowDown" = { m with backward := false } ∧
      handleKeyUp m "KeyA" = { m with left := false } ∧
      handleKeyUp m "ArrowLeft" = { m with left := false } ∧
      handleKeyUp m "KeyD" = { m with right := false } ∧
      handleKeyUp m "ArrowRight" = { m with right := false }) ∧
    (∀ code, code ∉ movementKeys → handleKeyDown m code = m ∧ handleKeyUp m code = m) ∧
    (∀ e, applyKeyEvent (applyKeyEvent m e) e = applyKeyEvent m e) := by
  refine ⟨?_, ?_, ?_, ?_⟩
  · simp [handleKeyDown]
  · simp [handleKeyUp]
  · intro code h
    simp [movementKeys] at h
    simp [handleKeyDown, handleKeyUp, h]
  · intro e
    unfold applyKeyEvent handleKeyDown handleKeyUp
    cases e.down <;> simp <;> split_ifs <;> simp_all

/-! ## Collision Probe and Locomotion Controller -/

section LocomotionTheorems

variable {K : Type} [LinearOrderedField K]

theorem VRScene.PlayerMovement.useFrame_gated (sqrt : K → K) (i : VRScene.FrameInput K)
    (p : Vector3 K) (h : i.isVRMode = true ∨ i.isLocked = false) :
    VRScene.PlayerMovement.useFrame sqrt i.isVRMode i.isLocked i.movement i.collidable
      i.worldDirection i.delta p = p := by
  unfold VRScene.PlayerMovement.useFrame
  rcases h with h | h <;> simp [h]

theorem Page.PlayerMovement.useFrame_gated_page (sqrt : K → K) (i : Page.FrameInput K)
    (p : Vector3 K) (h : i.isVRMode = true ∨ i.controlsIsLocked ≠ some true) :
    Page.PlayerMovement.useFrame sqrt i.isVRMode i.controlsIsLocked i.movement
      i.worldDirection i.delta p = p := by
  unfold Page.PlayerMovement.useFrame
  rcases h with h | h
  · simp [h]
  · have : i.controlsIsLocked.getD false = false := by
      cases hc : i.controlsIsLocked with
      | none => rfl
      | some b => cases b <;> simp_all
    simp [this]

/-- C5: while VR mode is active or the pointer is Unlocked, no run of frames of the
Locomotion Controller changes the camera position, whatever keys are held, whatever the camera
orientation, the collidable and the frame deltas - in the free-roam viewer and in the
guided-view variant (where Unlocked means that `state.controls?.isLocked` is not true). -/
theorem locomotion_gate (sqrt : K → K) (p : Vector3 K)
    (is : List (VRScene.FrameInput K)) (js : List (Page.FrameInput K))
    (h : ∀ i ∈ is, i.isVRMode = true ∨ i.isLocked = false)
    (h' : ∀ j ∈ js, j.isVRMode = true ∨ j.controlsIsLocked ≠ some true) :
    VRScene.PlayerMovement.frames sqrt p is = p ∧
    Page.PlayerMovement.frames sqrt p js = p := by
  constructor
  · unfold VRScene.PlayerMovement.frames
    induction is with
    | nil => rfl
    | cons i is ih =>
      rw [List.foldl_cons, VRScene.PlayerMovement.useFrame_gated sqrt i p
        (h i (List.mem_cons_self _ _))]
      exact ih (fun k hk => h k (List.mem_cons_of_mem _ hk))
  · unfold Page.PlayerMovement.frames
    induction js with
    | nil => rfl
    | cons j js ih =>
      rw [List.foldl_cons, Page.PlayerMovement.useFrame_gated_page sqrt j p
        (h' j (List.mem_cons_self _ _))]
      exact ih (fun k hk => h' k (List.mem_cons_of_mem _ hk))

end LocomotionTheorems

section LocomotionTheorems2

variable {K : Type} [LinearOrderedField K]

theorem Vector3.addScaledVector_addScaledVector (p f : Vector3 K) (a b : K) :
    (p.addScaledVector f a).addScaledVector f b = p.addScaledVector f (a + b) := by
  simp only [Vector3.addScaledVector, Vector3.mk.injEq]
  refine ⟨?_, ?_, ?_⟩ <;> ring

theorem Vector3.addScaledVector_zero (p f : Vector3 K) : p.addScaledVector f 0 = p := by
  simp [Vector3.addScaledVector]

theorem moveDirection_onlyForward (sqrt : K → K) (dir : Vector3 K) :
    moveDirection sqrt onlyForward dir = horizontalForward sqrt dir := by
  simp [moveDirection, onlyForward, Vector3.add, Vector3.zero]

theorem probeDirection_onlyForward (sqrt : K → K) (h1 : sqrt 1 = 1) (dir : Vector3 K)
    (hunit : (horizontalForward sqrt dir).lengthSq = 1) :
    probeDirection sqrt onlyForward dir = horizontalForward sqrt dir := by
  unfold probeDirection
  rw [moveDirection_onlyForward]
  simp [Vector3.normalize, Vector3.length, hunit, h1, Vector3.divideScalar,
    Vector3.multiplyScalar]

theorem canMove_of_clear (collidable : Option (Collidable K)) (p d : Vector3 K)
    (hclear : ∀ c, collidable = some c → ∀ h rest, c (rayOrigin p) d = h :: rest → 1 ≤ h) :
    canMove collidable p d = true := by
  unfold canMove
  cases collidable with
  | none => rfl
  | some c =>
    simp only
    cases hc : c (rayOrigin p) d with
    | nil => rfl
    | cons h rest =>
      have := hclear c rfl h rest hc
      simp [collisionDistance, not_lt.mpr this]

theorem VRScene.PlayerMovement.useFrame_forward_clear (sqrt : K → K) (h1 : sqrt 1 = 1)
    (collidable : Option (Collidable K)) (dir : Vector3 K)
    (hunit : (horizontalForward sqrt dir).lengthSq = 1) (delta : K) (p : Vector3 K)
    (hclear : ∀ c, collidable = some c →
      ∀ h rest, c (rayOrigin p) (horizontalForward sqrt dir) = h :: rest → 1 ≤ h) :
    VRScene.PlayerMovement.useFrame sqrt false true onlyForward collidable dir delta p
      = p.addScaledVector (horizontalForward sqrt dir) (5 * delta) := by
  have hd := probeDirection_onlyForward sqrt h1 dir hunit
  unfold probeDirection at hd
  have hlen : (moveDirection sqrt onlyForward dir).length sqrt = 1 := by
    rw [moveDirection_onlyForward, Vector3.length, hunit, h1]
  unfold VRScene.PlayerMovement.useFrame
  simp only [hlen, hd, canMove_of_clear collidable p _ hclear, playerSpeed]
  simp

/-- A walk with only "forward" held along a path that is clear at the ray origins of its own
frames: the camera ends at `q + 5 * t * f`, `t` being the sum of the deltas. -/
theorem VRScene.PlayerMovement.frames_forward_clear (sqrt : K → K) (h1 : sqrt 1 = 1)
    (collidable : Option (Collidable K)) (dir : Vector3 K)
    (hunit : (horizontalForward sqrt dir).lengthSq = 1) (ds : List K) :
    ∀ q : Vector3 K,
      (∀ c, collidable = some c → ∀ k, k < ds.length → ∀ h rest,
        c (rayOrigin (q.addScaledVector (horizontalForward sqrt dir) (5 * (ds.take k).sum)))
          (horizontalForward sqrt dir) = h :: rest → 1 ≤ h) →
      VRScene.PlayerMovement.frames sqrt q (VRScene.heldFrames onlyForward collidable dir ds)
        = q.addScaledVector (horizontalForward sqrt dir) (5 * ds.sum) := by
  induction ds with
  | nil =>
    intro q _
    simp [VRScene.PlayerMovement.frames, VRScene.heldFrames, Vector3.addScaledVector_zero]
  | cons d ds ih =>
    intro q hclear
    have hq : ∀ c, collidable = some c →
        ∀ h rest, c (rayOrigin q) (horizontalForward sqrt dir) = h :: rest → 1 ≤ h := by
      intro c hc h rest hhit
      have := hclear c hc 0 (by simp) h rest
      simp only [List.take_zero, List.sum_nil, mul_zero, Vector3.addScaledVector_zero] at this
      exact this hhit
    have htail : ∀ c, collidable = some c → ∀ k, k < ds.length → ∀ h rest,
        c (rayOrigin ((q.addScaledVector (horizontalForward sqrt dir) (5 * d)).addScaledVector
            (horizontalForward sqrt dir) (5 * (ds.take k).sum)))
          (horizontalForward sqrt dir) = h :: rest → 1 ≤ h := by
      intro c hc k hk h rest hhit
      have := hclear c hc (k + 1) (by simp; omega) h rest
      simp only [List.take_succ_cons, List.sum_cons, mul_add] at this
      rw [Vector3.addScaledVector_addScaledVector] at hhit
      exact this hhit
    have := ih (q.addScaledVector (horizontalForward sqrt dir) (5 * d)) htail
    unfold VRScene.PlayerMovement.frames VRScene.heldFrames at this ⊢
    rw [List.map_cons, List.foldl_cons]
    simp only
    rw [VRScene.PlayerMovement.useFrame_forward_clear sqrt h1 collidable dir hunit d q hq,
      this, Vector3.addScaledVector_addScaledVector, List.sum_cons, mul_add]

/-- C6: with the pointer Locked, VR off, only "forward" held, a camera whose horizontal
forward vector `f` is a unit vector, and a clear path - no collidable, or at each ray origin
of the run (the camera position before each frame, lowered by 0.5) no hit along `f` or a
nearest hit not closer than 1.0 - every finite sequence of frame deltas moves the camera from
`p` to `p + 5 * t * f`, `t` being the sum of the deltas; so another sequence of the same total
time whose own path is clear (one large step, many small steps) gives the same position. -/
theorem locomotion_frame_rate_independent (sqrt : K → K) (h1 : sqrt 1 = 1)
    (collidable : Option (Collidable K)) (dir : Vector3 K)
    (hunit : (horizontalForward sqrt dir).lengthSq = 1)
    (p : Vector3 K) (deltas : List K)
    (hclear : ∀ c, collidable = some c → ∀ k, k < deltas.length → ∀ h rest,
      c (rayOrigin (p.addScaledVector (horizontalForward sqrt dir) (5 * (deltas.take k).sum)))
        (horizontalForward sqrt dir) = h :: rest → 1 ≤ h) :
    VRScene.PlayerMovement.frames sqrt p
        (VRScene.heldFrames onlyForward collidable dir deltas)
      = p.addScaledVector (horizontalForward sqrt dir) (5 * deltas.sum) ∧
    ∀ deltas2 : List K, deltas2.sum = deltas.sum →
      (∀ c, collidable = some c → ∀ k, k < deltas2.length → ∀ h rest,
        c (rayOrigin (p.addScaledVector (horizontalForward sqrt dir)
            (5 * (deltas2.take k).sum)))
          (horizontalForward sqrt dir) = h :: rest → 1 ≤ h) →
      VRScene.PlayerMovement.frames sqrt p
          (VRScene.heldFrames onlyForward collidable dir deltas2)
        = VRScene.PlayerMovement.frames sqrt p
          (VRScene.heldFrames onlyForward collidable dir deltas) := by
  have key := VRScene.PlayerMovement.frames_forward_clear sqrt h1 collidable dir hunit
  refine ⟨key deltas p hclear, ?_⟩
  intro deltas2 hsum hclear2
  rw [key deltas2 p hclear2, key deltas p hclear, hsum]

/-- C7: with the pointer Locked, VR off, only "forward" held and a collidable whose nearest
hit along the probed ray (from the camera position lowered by 0.5, in the normalised move
direction) is at distance 0.5, the camera position after any number of frames, whatever their
deltas, is the initial position. -/
theorem blocked_locomotion_no_displacement (sqrt : K → K) (c : Collidable K)
    (dir : Vector3 K) (p : Vector3 K) (rest : List K)
    (hhit : c (rayOrigin p) (probeDirection sqrt onlyForward dir) = (1 / 2) :: rest)
    (deltas : List K) :
    VRScene.PlayerMovement.frames sqrt p
      (VRScene.heldFrames onlyForward (some c) dir deltas) = p := by
  have step : ∀ delta : K,
      VRScene.PlayerMovement.useFrame sqrt false true onlyForward (some c) dir delta p = p := by
    intro delta
    unfold probeDirection at hhit
    have hlt : (1 / 2 : K) < 1 := by norm_num
    have hcm : canMove (some c) p ((moveDirection sqrt onlyForward dir).normalize sqrt)
        = false := by
      simp only [canMove, hhit, collisionDistance, hlt, if_true]
    unfold VRScene.PlayerMovement.useFrame
    simp [hcm]
  unfold VRScene.PlayerMovement.frames VRScene.heldFrames
  induction deltas with
  | nil => rfl
  | cons d ds ih =>
    rw [List.map_cons, List.foldl_cons]
    simp only
    rw [step d]
    exact ih

/-- C8: the probe blocks the move exactly when the collidable is present, the ray cast from
the camera position lowered by 0.5 hits it, and the nearest hit is strictly closer than 1.0;
with no collidable nothing is blocked, a nearest hit at 1.0 or more does not block, and a
Locked, non-VR frame with a non-zero move direction moves the camera exactly when the probe
does not block. -/
theorem collision_probe_decision (sqrt : K → K) (collidable : Option (Collidable K))
    (p d : Vector3 K) :
    (canMove collidable p d = false ↔
      ∃ c, collidable = some c ∧ ∃ h rest, c (rayOrigin p) d = h :: rest ∧ h < 1) ∧
    rayOrigin p = ⟨p.x, p.y - 1 / 2, p.z⟩ ∧
    canMove none p d = true ∧
    (∀ (c : Collidable K) h rest, c (rayOrigin p) d = h :: rest → 1 ≤ h →
      canMove (some c) p d = true) ∧
    (∀ (movement : Movement) (dir : Vector3 K) (delta : K),
      0 < (moveDirection sqrt movement dir).length sqrt →
      VRScene.PlayerMovement.useFrame sqrt false true movement collidable dir delta p
        = if canMove collidable p (probeDirection sqrt movement dir) = false then p
          else p.addScaledVector (probeDirection sqrt movement dir) (5 * delta)) := by
  refine ⟨?_, rfl, rfl, ?_, ?_⟩
  · unfold canMove
    cases collidable with
    | none => simp
    | some c =>
      cases hc : c (rayOrigin p) d with
      | nil => simp [hc]
      | cons h rest => simp [hc, collisionDistance]
  · intro c h rest hc hh
    simp [canMove, hc, collisionDistance, not_lt.mpr hh]
  · intro movement dir delta hlen
    unfold VRScene.PlayerMovement.useFrame probeDirection
    cases hcm : canMove collidable p ((moveDirection sqrt movement dir).normalize sqrt) <;>
      simp [hlen, hcm, playerSpeed]

end LocomotionTheorems2

section LocomotionWitnesses

theorem rat_sqrt_one : Rat.sqrt 1 = 1 := by
  simp

theorem horizontalForward_rat_negZ :
    horizontalForward Rat.sqrt (⟨0, 0, -1⟩ : Vector3 ℚ) = ⟨0, 0, -1⟩ := by
  simp [horizontalForward, Vector3.normalize, Vector3.length, Vector3.lengthSq,
    Vector3.divideScalar, Vector3.multiplyScalar, rat_sqrt_one]

/-- Witness for C5: a VR frame and an Unlocked frame with "forward" held leave (0, 1.6, 0). -/
theorem locomotion_gate_witness :
    VRScene.PlayerMovement.frames Rat.sqrt (⟨0, 8 / 5, 0⟩ : Vector3 ℚ)
        [⟨true, true, onlyForward, none, ⟨0, 0, -1⟩, 1 / 60⟩,
         ⟨false, false, onlyForward, none, ⟨0, 0, -1⟩, 1 / 60⟩] = ⟨0, 8 / 5, 0⟩ ∧
    Page.PlayerMovement.frames Rat.sqrt (⟨0, 8 / 5, 0⟩ : Vector3 ℚ)
        [⟨true, some true, onlyForward, ⟨0, 0, -1⟩, 1 / 60⟩,
         ⟨false, none, onlyForward, ⟨0, 0, -1⟩, 1 / 60⟩,
         ⟨false, some false, onlyForward, ⟨0, 0, -1⟩, 1 / 60⟩] = ⟨0, 8 / 5, 0⟩ :=
  locomotion_gate Rat.sqrt _ _ _ (by simp) (by simp)

/-- Witness for C6: looking along -Z towards a wall in the plane z = -10 (a ray from `o`
hits it at distance `o.z + 10`), the deltas 1/2, 1/4, 1/4 (one second in all) carry the camera
from (0, 1.6, 0) to (0, 1.6, -5); the wall is 10, 7.5 and 6.25 away at the three ray
origins. -/
theorem locomotion_frame_rate_independent_witness :
    VRScene.PlayerMovement.frames Rat.sqrt (⟨0, 8 / 5, 0⟩ : Vector3 ℚ)
        (VRScene.heldFrames onlyForward (some (fun o _ => [o.z + 10])) ⟨0, 0, -1⟩
          [1 / 2, 1 / 4, 1 / 4])
      = ⟨0, 8 / 5, -5⟩ := by
  have h := (locomotion_frame_rate_independent Rat.sqrt rat_sqrt_one
    (some (fun o _ => [o.z + 10])) (⟨0, 0, -1⟩ : Vector3 ℚ)
    (by rw [horizontalForward_rat_negZ]; norm_num [Vector3.lengthSq])
    ⟨0, 8 / 5, 0⟩ [1 / 2, 1 / 4, 1 / 4]
    (by
      intro c hc k hk h rest hhit
      cases hc
      rw [horizontalForward_rat_negZ] at hhit
      simp only [List.length_cons, List.length_nil] at hk
      simp only [rayOrigin, Vector3.addScaledVector, List.cons.injEq] at hhit
      rw [← hhit.1]
      interval_cases k <;> norm_num)).1
  rw [h, horizontalForward_rat_negZ]
  norm_num [Vector3.addScaledVector]

/-- Witness for C7: looking along -Z with a wall at distance 0.5, three frames leave the camera
at (0, 1.6, 0). -/
theorem blocked_locomotion_no_displacement_witness :
    VRScene.PlayerMovement.frames Rat.sqrt (⟨0, 8 / 5, 0⟩ : Vector3 ℚ)
        (VRScene.heldFrames onlyForward (some (fun _ _ => [1 / 2, 3])) ⟨0, 0, -1⟩
          [1 / 60, 1 / 30, 1])
      = ⟨0, 8 / 5, 0⟩ :=
  blocked_locomotion_no_displacement Rat.sqrt (fun _ _ => [1 / 2, 3]) ⟨0, 0, -1⟩
    ⟨0, 8 / 5, 0⟩ [3] rfl [1 / 60, 1 / 30, 1]

end LocomotionWitnesses

/-! ## Teleport Transit Animator -/

section TransitTheorems

variable {K : Type} [LinearOrderedField K]

/-- C4: on the first frame of a new transit in the free-roam viewer the captured start point
is the current camera position, the end point is (target.x, camera.y, target.z), progress is
reset to 0 and the duration is distance(start, end) / 8; the frame then advances the progress
from 0. -/
theorem transit_entry (sqrt : K → K) (hsqrt : ∀ x, 0 ≤ sqrt x) (position target : Vector3 K)
    (delta : K) (c : VRScene.CameraController K) (hidle : c.isMoving = false) :
    (VRScene.CameraController.beginMove sqrt position target).start = position ∧
    (VRScene.CameraController.beginMove sqrt position target).end_
      = ⟨target.x, position.y, target.z⟩ ∧
    (VRScene.CameraController.beginMove sqrt position target).progress = 0 ∧
    (VRScene.CameraController.beginMove sqrt position target).duration
      = Vector3.distanceTo sqrt position ⟨target.x, position.y, target.z⟩ / 8 ∧
    (VRScene.CameraController.useFrame sqrt (some target) delta position c).controller.moveState
      = { VRScene.CameraController.beginMove sqrt position target with
          progress :=
            if Vector3.distanceTo sqrt position ⟨target.x, position.y, target.z⟩ / 8 ≤ 1 / 100
            then 1
            else 0 + delta /
              (Vector3.distanceTo sqrt position ⟨target.x, position.y, target.z⟩ / 8) } := by
  have hdur : (VRScene.CameraController.beginMove sqrt position target).duration
      = Vector3.distanceTo sqrt position ⟨target.x, position.y, target.z⟩ / 8 := by
    unfold VRScene.CameraController.beginMove
    simp only
    split_ifs with h
    · rfl
    · have h0 : Vector3.distanceTo sqrt position ⟨target.x, position.y, target.z⟩ = 0 :=
        le_antisymm (not_lt.mp h) (hsqrt _)
      rw [h0, zero_div]
  refine ⟨rfl, rfl, rfl, hdur, ?_⟩
  unfold VRScene.CameraController.useFrame
  simp only [hidle, Bool.false_eq_true, if_false, hdur]
  split_ifs <;> rfl

end TransitTheorems

section TransitRun

variable {K : Type} [LinearOrderedField K]

theorem VRScene.Scene.frames_append (sqrt : K → K) (s : VRScene.Scene K)
    (is : List (VRScene.FrameInput K)) (i : VRScene.FrameInput K) :
    VRScene.Scene.frames sqrt s (is ++ [i])
      = VRScene.Scene.frame sqrt (VRScene.Scene.frames sqrt s is) i := by
  simp [VRScene.Scene.frames, List.foldl_append]

theorem moveDirection_initial (sqrt : K → K) (dir : Vector3 K) :
    moveDirection sqrt Movement.initial dir = Vector3.zero := by
  simp [moveDirection, Movement.initial]

theorem VRScene.PlayerMovement.useFrame_no_keys (sqrt : K → K) (isVRMode isLocked : Bool)
    (collidable : Option (Collidable K)) (dir : Vector3 K) (delta : K) (p : Vector3 K) :
    VRScene.PlayerMovement.useFrame sqrt isVRMode isLocked Movement.initial collidable dir
      delta p = p := by
  unfold VRScene.PlayerMovement.useFrame
  rw [moveDirection_initial]
  have hz : ∀ a : K, (Vector3.zero : Vector3 K).divideScalar a = Vector3.zero := by
    intro a
    simp [Vector3.divideScalar, Vector3.multiplyScalar, Vector3.zero]
  have hadd : ∀ a : K, p.addScaledVector Vector3.zero a = p := by
    intro a
    simp [Vector3.addScaledVector, Vector3.zero]
  simp only [Vector3.normalize, hz, hadd]
  split_ifs <;> rfl

/-- The state of a transit from `S` to `E` of duration `dur` after `t` seconds in flight. -/
theorem VRScene.Scene.frame_in_flight (sqrt : K → K) (S E T : Vector3 K) (dur t : K)
    (hdur : 1 / 100 < dur) (s : VRScene.Scene K) (i : VRScene.FrameInput K)
    (hkeys : i.movement = Movement.initial)
    (htarget : s.teleportTarget = some T) (hmoving : s.controller.isMoving = true)
    (hstate : s.controller.moveState = ⟨S, E, dur, t / dur⟩) :
    (t + i.delta < dur →
      VRScene.Scene.frame sqrt s i
        = ⟨Vector3.lerpVectors S E ((t + i.delta) / dur),
            ⟨true, ⟨S, E, dur, (t + i.delta) / dur⟩⟩, some T⟩) ∧
    (dur ≤ t + i.delta →
      VRScene.Scene.frame sqrt s i = ⟨E, ⟨false, ⟨S, E, dur, (t + i.delta) / dur⟩⟩, none⟩) := by
  have hpos : 0 < dur := lt_trans (by norm_num) hdur
  have hprog : t / dur + i.delta / dur = (t + i.delta) / dur := by ring
  have hnle : ¬ dur ≤ 1 / 100 := not_le.mpr hdur
  constructor
  · intro hlt
    have h1 : ¬ 1 ≤ (t + i.delta) / dur := by
      rw [not_le, div_lt_one hpos]; exact hlt
    unfold VRScene.Scene.frame VRScene.CameraController.useFrame
    simp only [htarget, hmoving, hstate, if_true, hnle, if_false, hprog, h1, hkeys,
      VRScene.PlayerMovement.useFrame_no_keys, Bool.false_eq_true]
  · intro hge
    have h1 : 1 ≤ (t + i.delta) / dur := by
      rw [le_div_iff₀ hpos, one_mul]; exact hge
    unfold VRScene.Scene.frame VRScene.CameraController.useFrame
    simp only [htarget, hmoving, hstate, if_true, hnle, if_false, hprog, h1, hkeys,
      VRScene.PlayerMovement.useFrame_no_keys]

end TransitRun

section TransitRun2

variable {K : Type} [LinearOrderedField K]

theorem VRScene.Scene.frame_idle (sqrt : K → K) (S T : Vector3 K)
    (c0 : VRScene.CameraController K) (hidle : c0.isMoving = false)
    (hd : 8 / 100 < Vector3.distanceTo sqrt S ⟨T.x, S.y, T.z⟩) (i : VRScene.FrameInput K) :
    VRScene.Scene.frame sqrt ⟨S, c0, some T⟩ i
      = VRScene.Scene.frame sqrt
          ⟨S, ⟨true, ⟨S, ⟨T.x, S.y, T.z⟩,
            Vector3.distanceTo sqrt S ⟨T.x, S.y, T.z⟩ / 8,
            0 / (Vector3.distanceTo sqrt S ⟨T.x, S.y, T.z⟩ / 8)⟩⟩, some T⟩ i := by
  have hpos : 0 < Vector3.distanceTo sqrt S ⟨T.x, S.y, T.z⟩ := lt_trans (by norm_num) hd
  unfold VRScene.Scene.frame VRScene.CameraController.useFrame
    VRScene.CameraController.beginMove
  simp only [hidle, Bool.false_eq_true, if_false, if_true, hpos, zero_div]

theorem VRScene.Scene.frames_in_flight (sqrt : K → K) (S T : Vector3 K)
    (c0 : VRScene.CameraController K) (hidle : c0.isMoving = false)
    (hd : 8 / 100 < Vector3.distanceTo sqrt S ⟨T.x, S.y, T.z⟩)
    (is : List (VRScene.FrameInput K)) (i : VRScene.FrameInput K)
    (hin : ∀ j ∈ is ++ [i], 0 < j.delta ∧ j.movement = Movement.initial)
    (hlt : (is.map VRScene.FrameInput.delta).sum + i.delta
        < Vector3.distanceTo sqrt S ⟨T.x, S.y, T.z⟩ / 8) :
    VRScene.Scene.frames sqrt ⟨S, c0, some T⟩ (is ++ [i])
      = ⟨Vector3.lerpVectors S ⟨T.x, S.y, T.z⟩
            (((is.map VRScene.FrameInput.delta).sum + i.delta)
              / (Vector3.distanceTo sqrt S ⟨T.x, S.y, T.z⟩ / 8)),
          ⟨true, ⟨S, ⟨T.x, S.y, T.z⟩, Vector3.distanceTo sqrt S ⟨T.x, S.y, T.z⟩ / 8,
            ((is.map VRScene.FrameInput.delta).sum + i.delta)
              / (Vector3.distanceTo sqrt S ⟨T.x, S.y, T.z⟩ / 8)⟩⟩,
          some T⟩ := by
  have hdur : (1 / 100 : K) < Vector3.distanceTo sqrt S ⟨T.x, S.y, T.z⟩ / 8 := by
    rw [lt_div_iff₀ (by norm_num : (0 : K) < 8)]
    calc (1 / 100 : K) * 8 = 8 / 100 := by ring
      _ < _ := hd
  induction is using List.reverseRecOn generalizing i with
  | nil =>
    have hk := (hin i (by simp)).2
    simp only [List.nil_append, VRScene.Scene.frames, List.foldl_cons, List.foldl_nil,
      List.map_nil, List.sum_nil] at hlt ⊢
    rw [VRScene.Scene.frame_idle sqrt S T c0 hidle hd]
    exact (VRScene.Scene.frame_in_flight sqrt S ⟨T.x, S.y, T.z⟩ T _ 0 hdur _ i hk rfl rfl
      rfl).1 hlt
  | append_singleton is k ih =>
    have hk := (hin i (by simp)).2
    have hipos := (hin i (by simp)).1
    have hin2 : ∀ j ∈ is ++ [k], 0 < j.delta ∧ j.movement = Movement.initial :=
      fun j hj => hin j (List.mem_append_left _ hj)
    simp only [List.map_append, List.map_cons, List.map_nil, List.sum_append, List.sum_cons,
      List.sum_nil, add_zero] at hlt ⊢
    have hlt2 : (is.map VRScene.FrameInput.delta).sum + k.delta
        < Vector3.distanceTo sqrt S ⟨T.x, S.y, T.z⟩ / 8 := by linarith
    rw [VRScene.Scene.frames_append, ih k hin2 hlt2]
    exact (VRScene.Scene.frame_in_flight sqrt S ⟨T.x, S.y, T.z⟩ T _ _ hdur _ i hk rfl rfl
      rfl).1 hlt

/-- C3: in the free-roam viewer, from an idle animator at `S` with a request for `T` whose
horizontal distance `d` from `S` exceeds 0.08, and over frames with positive deltas and no
movement key held: a frame whose cumulative elapsed time is below `d / 8` leaves the transit in
flight (request pending, camera on the segment from `S` to `(T.x, S.y, T.z)`), and the first
frame whose cumulative elapsed time reaches `d / 8` puts the camera exactly at
`(T.x, S.y, T.z)`, ends the transit and clears the request. -/
theorem transit_completion_time (sqrt : K → K) (S T : Vector3 K)
    (c0 : VRScene.CameraController K) (hidle : c0.isMoving = false)
    (hd : 8 / 100 < Vector3.distanceTo sqrt S ⟨T.x, S.y, T.z⟩)
    (is : List (VRScene.FrameInput K)) (i : VRScene.FrameInput K)
    (hin : ∀ j ∈ is ++ [i], 0 < j.delta ∧ j.movement = Movement.initial) :
    ((is.map VRScene.FrameInput.delta).sum + i.delta
        < Vector3.distanceTo sqrt S ⟨T.x, S.y, T.z⟩ / 8 →
      (VRScene.Scene.frames sqrt ⟨S, c0, some T⟩ (is ++ [i])).controller.isMoving = true ∧
      (VRScene.Scene.frames sqrt ⟨S, c0, some T⟩ (is ++ [i])).teleportTarget = some T ∧
      (VRScene.Scene.frames sqrt ⟨S, c0, some T⟩ (is ++ [i])).position
        = Vector3.lerpVectors S ⟨T.x, S.y, T.z⟩
            (((is.map VRScene.FrameInput.delta).sum + i.delta)
              / (Vector3.distanceTo sqrt S ⟨T.x, S.y, T.z⟩ / 8))) ∧
    ((is.map VRScene.FrameInput.delta).sum
        < Vector3.distanceTo sqrt S ⟨T.x, S.y, T.z⟩ / 8 →
      Vector3.distanceTo sqrt S ⟨T.x, S.y, T.z⟩ / 8
        ≤ (is.map VRScene.FrameInput.delta).sum + i.delta →
      (VRScene.Scene.frames sqrt ⟨S, c0, some T⟩ (is ++ [i])).position = ⟨T.x, S.y, T.z⟩ ∧
      (VRScene.Scene.frames sqrt ⟨S, c0, some T⟩ (is ++ [i])).teleportTarget = none ∧
      (VRScene.Scene.frames sqrt ⟨S, c0, some T⟩ (is ++ [i])).controller.isMoving = false) := by
  have hdur : (1 / 100 : K) < Vector3.distanceTo sqrt S ⟨T.x, S.y, T.z⟩ / 8 := by
    rw [lt_div_iff₀ (by norm_num : (0 : K) < 8)]
    calc (1 / 100 : K) * 8 = 8 / 100 := by ring
      _ < _ := hd
  have hk := (hin i (by simp)).2
  constructor
  · intro hlt
    rw [VRScene.Scene.frames_in_flight sqrt S T c0 hidle hd is i hin hlt]
    exact ⟨rfl, rfl, rfl⟩
  · intro hlt hge
    rw [VRScene.Scene.frames_append]
    cases is using List.reverseRecOn with
    | nil =>
      simp only [VRScene.Scene.frames, List.foldl_nil, List.map_nil, List.sum_nil] at hge ⊢
      rw [VRScene.Scene.frame_idle sqrt S T c0 hidle hd,
        (VRScene.Scene.frame_in_flight sqrt S ⟨T.x, S.y, T.z⟩ T _ 0 hdur _ i hk rfl rfl
          rfl).2 hge]
      exact ⟨rfl, rfl, rfl⟩
    | append_singleton is k =>
      have hin2 : ∀ j ∈ is ++ [k], 0 < j.delta ∧ j.movement = Movement.initial :=
        fun j hj => hin j (List.mem_append_left _ hj)
      simp only [List.map_append, List.map_cons, List.map_nil, List.sum_append, List.sum_cons,
        List.sum_nil, add_zero] at hlt hge
      rw [VRScene.Scene.frames_in_flight sqrt S T c0 hidle hd is k hin2 hlt,
        (VRScene.Scene.frame_in_flight sqrt S ⟨T.x, S.y, T.z⟩ T _ _ hdur _ i hk rfl rfl
          rfl).2 hge]
      exact ⟨rfl, rfl, rfl⟩

end TransitRun2

section TransitWitnesses

theorem distanceTo_real_spec_example :
    Vector3.distanceTo Real.sqrt (⟨0, 8 / 5, 0⟩ : Vector3 ℝ) ⟨10, 8 / 5, 10⟩
      = Real.sqrt 200 := by
  unfold Vector3.distanceTo Vector3.distanceToSquared
  norm_num

theorem real_sqrt_200_bounds : (8 : ℝ) < Real.sqrt 200 ∧ Real.sqrt 200 ≤ 16 := by
  constructor
  · exact Real.lt_sqrt_of_sq_lt (by norm_num)
  · rw [Real.sqrt_le_left (by norm_num)]; norm_num

/-- Witness for C3, the example of the specification: from (0, 1.6, 0) with target (10, 0, 10),
duration sqrt(200) / 8 (about 1.77 s); after two frames of one second each the camera is
exactly at (10, 1.6, 10) and the request is cleared. -/
theorem transit_completion_time_witness :
    (VRScene.Scene.frames Real.sqrt
        (⟨⟨0, 8 / 5, 0⟩, VRScene.CameraController.initial, some ⟨10, 0, 10⟩⟩ : VRScene.Scene ℝ)
        ([⟨false, true, Movement.initial, none, ⟨0, 0, -1⟩, 1⟩] ++
          [⟨false, true, Movement.initial, none, ⟨0, 0, -1⟩, 1⟩])).position = ⟨10, 8 / 5, 10⟩ ∧
    (VRScene.Scene.frames Real.sqrt
        (⟨⟨0, 8 / 5, 0⟩, VRScene.CameraController.initial, some ⟨10, 0, 10⟩⟩ : VRScene.Scene ℝ)
        ([⟨false, true, Movement.initial, none, ⟨0, 0, -1⟩, 1⟩] ++
          [⟨false, true, Movement.initial, none, ⟨0, 0, -1⟩, 1⟩])).teleportTarget = none := by
  have hb := real_sqrt_200_bounds
  have h := (transit_completion_time Real.sqrt (⟨0, 8 / 5, 0⟩ : Vector3 ℝ) ⟨10, 0, 10⟩
    VRScene.CameraController.initial rfl
    (by rw [distanceTo_real_spec_example]; linarith [hb.1])
    [⟨false, true, Movement.initial, none, ⟨0, 0, -1⟩, 1⟩]
    ⟨false, true, Movement.initial, none, ⟨0, 0, -1⟩, 1⟩
    (by
      intro j hj
      simp at hj
      subst hj
      exact ⟨by norm_num, rfl⟩)).2
    (by rw [distanceTo_real_spec_example]; simp; linarith [hb.1])
    (by rw [distanceTo_real_spec_example]; simp; linarith [hb.2])
  exact ⟨h.1, h.2.1⟩

end TransitWitnesses

section TransitWitnesses2

theorem rat_sqrt_25 : Rat.sqrt 25 = 5 := by
  norm_num

theorem distanceTo_rat_3_4 :
    Vector3.distanceTo Rat.sqrt (⟨0, 8 / 5, 0⟩ : Vector3 ℚ) ⟨3, 8 / 5, 4⟩ = 5 := by
  unfold Vector3.distanceTo Vector3.distanceToSquared
  norm_num [rat_sqrt_25]

/-- Witness for C4: from (0, 1.6, 0) with target (3, 0, 4) the first frame (delta 1/8) records
start (0, 1.6, 0), end (3, 1.6, 4), duration 5/8 and progress 0 + (1/8) / (5/8) = 1/5. -/
theorem transit_entry_witness :
    (VRScene.CameraController.useFrame Rat.sqrt (some ⟨3, 0, 4⟩) (1 / 8)
        (⟨0, 8 / 5, 0⟩ : Vector3 ℚ) VRScene.CameraController.initial).controller.moveState
      = ⟨⟨0, 8 / 5, 0⟩, ⟨3, 8 / 5, 4⟩, 5 / 8, 1 / 5⟩ := by
  have h := transit_entry Rat.sqrt Rat.sqrt_nonneg (⟨0, 8 / 5, 0⟩ : Vector3 ℚ) ⟨3, 0, 4⟩ (1 / 8)
    VRScene.CameraController.initial rfl
  obtain ⟨h1, h2, h3, h4, h5⟩ := h
  rw [h5]
  simp only [distanceTo_rat_3_4] at h4 ⊢
  rw [VRScene.MoveState.mk.injEq]
  refine ⟨h1, h2, h4, ?_⟩
  norm_num

end TransitWitnesses2

section Preemption

/-- C1, as stated, fails.  Free-roam viewer: a transit from (0, 1.6, 0) to (8, 0, 0) is 50%
complete with the camera at (4, 1.6, 0) when a request for (0, 0, 6) arrives; after the next
frame the start point is still (0, 1.6, 0), not (4, 1.6, 0), and the end point is still
(8, 1.6, 0), not (0, 1.6, 6).  Guided view: a transit from (0, 1.6, 10) to (5, 1.6, 5) is 50%
complete with the camera at (2.5, 1.6, 7.5) when a request for (-5, 1.6, -5) arrives; after
the next frame the start point is still (0, 1.6, 10) and the progress went on from 0.5. -/
theorem second_request_does_not_restart :
    (VRScene.Scene.frame Rat.sqrt
        (⟨⟨0, 8 / 5, 0⟩, VRScene.CameraController.initial, some ⟨8, 0, 0⟩⟩ : VRScene.Scene ℚ)
        ⟨false, false, Movement.initial, none, ⟨0, 0, -1⟩, 1 / 2⟩)
      = ⟨⟨4, 8 / 5, 0⟩, ⟨true, ⟨⟨0, 8 / 5, 0⟩, ⟨8, 8 / 5, 0⟩, 1, 1 / 2⟩⟩, some ⟨8, 0, 0⟩⟩ ∧
    (VRScene.Scene.frame Rat.sqrt
        ((VRScene.Scene.frame Rat.sqrt
          (⟨⟨0, 8 / 5, 0⟩, VRScene.CameraController.initial, some ⟨8, 0, 0⟩⟩ : VRScene.Scene ℚ)
          ⟨false, false, Movement.initial, none, ⟨0, 0, -1⟩, 1 / 2⟩).setTeleportTarget
            (some ⟨0, 0, 6⟩))
        ⟨false, false, Movement.initial, none, ⟨0, 0, -1⟩, 1 / 4⟩)
      = ⟨⟨6, 8 / 5, 0⟩, ⟨true, ⟨⟨0, 8 / 5, 0⟩, ⟨8, 8 / 5, 0⟩, 1, 3 / 4⟩⟩, some ⟨0, 0, 6⟩⟩ ∧
    (Page.CameraController.useFrame false (some ⟨5, 8 / 5, 5⟩) (1 / 4)
        (⟨0, 8 / 5, 10⟩ : Vector3 ℚ) ⟨false, Vector3.zero, 0⟩)
      = ⟨⟨5 / 2, 8 / 5, 15 / 2⟩, ⟨true, ⟨0, 8 / 5, 10⟩, 1 / 2⟩, false⟩ ∧
    (Page.CameraController.useFrame false (some ⟨-5, 8 / 5, -5⟩) (1 / 8)
        (⟨5 / 2, 8 / 5, 15 / 2⟩ : Vector3 ℚ) ⟨true, ⟨0, 8 / 5, 10⟩, 1 / 2⟩)
      = ⟨⟨-15 / 4, 8 / 5, -5 / 4⟩, ⟨true, ⟨0, 8 / 5, 10⟩, 3 / 4⟩, false⟩ := by
  have hs : Rat.sqrt 64 = 8 := by norm_num
  have h1 : VRScene.Scene.frame Rat.sqrt
        (⟨⟨0, 8 / 5, 0⟩, VRScene.CameraController.initial, some ⟨8, 0, 0⟩⟩ : VRScene.Scene ℚ)
        ⟨false, false, Movement.initial, none, ⟨0, 0, -1⟩, 1 / 2⟩
      = ⟨⟨4, 8 / 5, 0⟩, ⟨true, ⟨⟨0, 8 / 5, 0⟩, ⟨8, 8 / 5, 0⟩, 1, 1 / 2⟩⟩, some ⟨8, 0, 0⟩⟩ := by
    norm_num [VRScene.Scene.frame, VRScene.CameraController.useFrame,
      VRScene.CameraController.beginMove, VRScene.CameraController.initial,
      VRScene.PlayerMovement.useFrame, Vector3.distanceTo, Vector3.distanceToSquared,
      Vector3.lerpVectors, hs]
  refine ⟨h1, ?_, ?_, ?_⟩
  · rw [h1]
    norm_num [VRScene.Scene.frame, VRScene.Scene.setTeleportTarget,
      VRScene.CameraController.useFrame, VRScene.PlayerMovement.useFrame, Vector3.lerpVectors]
  · norm_num [Page.CameraController.useFrame, Vector3.lerpVectors]
  · norm_num [Page.CameraController.useFrame, Vector3.lerpVectors]

end Preemption

section PreemptionAmended

variable {K : Type} [LinearOrderedField K]

/-- C1, amended: there is no restart on preemption.  Free-roam viewer: when a request for `T2`
replaces the pending one while a transit is in flight, the next frame leaves the camera and
the animator exactly where they would be without the new request - start, end and duration
stay those of the first transit - and the pending request is cleared if that frame
completes the first transit.  Guided view: the start point and the progress of the first
transit are kept, and the camera is interpolated from that start towards `T2`. -/
theorem in_flight_transit_keeps_start (sqrt : K → K) (s : VRScene.Scene K) (T1 T2 : Vector3 K)
    (i : VRScene.FrameInput K) (hmoving : s.controller.isMoving = true)
    (hpending : s.teleportTarget = some T1)
    (c : Page.CameraController K) (hc : c.isMoving = true) (delta : K) (p : Vector3 K) :
    (VRScene.Scene.frame sqrt (s.setTeleportTarget (some T2)) i).position
      = (VRScene.Scene.frame sqrt s i).position ∧
    (VRScene.Scene.frame sqrt (s.setTeleportTarget (some T2)) i).controller
      = (VRScene.Scene.frame sqrt s i).controller ∧
    (VRScene.Scene.frame sqrt (s.setTeleportTarget (some T2)) i).controller.moveState.start
      = s.controller.moveState.start ∧
    (VRScene.Scene.frame sqrt (s.setTeleportTarget (some T2)) i).controller.moveState.end_
      = s.controller.moveState.end_ ∧
    (VRScene.Scene.frame sqrt (s.setTeleportTarget (some T2)) i).controller.moveState.duration
      = s.controller.moveState.duration ∧
    (VRScene.Scene.frame sqrt (s.setTeleportTarget (some T2)) i).teleportTarget
      = (if (VRScene.Scene.frame sqrt s i).teleportTarget = none then none else some T2) ∧
    (Page.CameraController.useFrame false (some T2) delta p c).controller.startPos
      = c.startPos ∧
    (Page.CameraController.useFrame false (some T2) delta p c).controller.progress
      = min (c.progress + delta * 2) 1 ∧
    (Page.CameraController.useFrame false (some T2) delta p c).position
      = Vector3.lerpVectors c.startPos T2 (min (c.progress + delta * 2) 1) := by
  refine ⟨?_, ?_, ?_, ?_, ?_, ?_, ?_, ?_, ?_⟩
  · simp [VRScene.Scene.frame, VRScene.Scene.setTeleportTarget,
      VRScene.CameraController.useFrame, hmoving, hpending]
  · simp [VRScene.Scene.frame, VRScene.Scene.setTeleportTarget,
      VRScene.CameraController.useFrame, hmoving, hpending]
  · simp only [VRScene.Scene.frame, VRScene.Scene.setTeleportTarget,
      VRScene.CameraController.useFrame, hmoving, if_true]
    split_ifs <;> rfl
  · simp only [VRScene.Scene.frame, VRScene.Scene.setTeleportTarget,
      VRScene.CameraController.useFrame, hmoving, if_true]
    split_ifs <;> rfl
  · simp only [VRScene.Scene.frame, VRScene.Scene.setTeleportTarget,
      VRScene.CameraController.useFrame, hmoving, if_true]
    split_ifs <;> rfl
  · simp only [VRScene.Scene.frame, VRScene.Scene.setTeleportTarget,
      VRScene.CameraController.useFrame, hmoving, hpending, if_true]
    split_ifs <;> simp_all
  · simp [Page.CameraController.useFrame, hc]
  · simp [Page.CameraController.useFrame, hc]
  · simp [Page.CameraController.useFrame, hc]

/-- Witness for C1, amended: the in-flight transit of the counterexample, at 50%. -/
theorem in_flight_transit_keeps_start_witness :
    (VRScene.Scene.frame Rat.sqrt
        ((⟨⟨4, 8 / 5, 0⟩, ⟨true, ⟨⟨0, 8 / 5, 0⟩, ⟨8, 8 / 5, 0⟩, 1, 1 / 2⟩⟩, some ⟨8, 0, 0⟩⟩ :
          VRScene.Scene ℚ).setTeleportTarget (some ⟨0, 0, 6⟩))
        ⟨false, false, Movement.initial, none, ⟨0, 0, -1⟩, 1 / 4⟩).controller.moveState.start
      = ⟨0, 8 / 5, 0⟩ ∧
    (Page.CameraController.useFrame false (some ⟨-5, 8 / 5, -5⟩) (1 / 8)
        (⟨5 / 2, 8 / 5, 15 / 2⟩ : Vector3 ℚ) ⟨true, ⟨0, 8 / 5, 10⟩, 1 / 2⟩).controller.startPos
      = ⟨0, 8 / 5, 10⟩ :=
  have h := in_flight_transit_keeps_start Rat.sqrt
    (⟨⟨4, 8 / 5, 0⟩, ⟨true, ⟨⟨0, 8 / 5, 0⟩, ⟨8, 8 / 5, 0⟩, 1, 1 / 2⟩⟩, some ⟨8, 0, 0⟩⟩ :
      VRScene.Scene ℚ) ⟨8, 0, 0⟩ ⟨0, 0, 6⟩
    ⟨false, false, Movement.initial, none, ⟨0, 0, -1⟩, 1 / 4⟩ rfl rfl
    (⟨true, ⟨0, 8 / 5, 10⟩, 1 / 2⟩ : Page.CameraController ℚ) rfl (1 / 8)
    ⟨5 / 2, 8 / 5, 15 / 2⟩
  ⟨h.2.2.1, h.2.2.2.2.2.2.1⟩

/-- C2, as stated, fails: a transit from (0, 1.6, 0) to (8, 1.6, 0) is in flight at 50%; in a
frame of 1/4 s with the pointer Locked and "forward" held (camera looking along -Z) the
Transit Animator sets the position to (6, 1.6, 0), and the Locomotion Controller then moves it
to (6, 1.6, -1.25). -/
theorem locomotion_writes_during_transit :
    (VRScene.CameraController.useFrame Rat.sqrt (some ⟨8, 0, 0⟩) (1 / 4)
        (⟨4, 8 / 5, 0⟩ : Vector3 ℚ)
        ⟨true, ⟨⟨0, 8 / 5, 0⟩, ⟨8, 8 / 5, 0⟩, 1, 1 / 2⟩⟩).position = ⟨6, 8 / 5, 0⟩ ∧
    (VRScene.Scene.frame Rat.sqrt
        (⟨⟨4, 8 / 5, 0⟩, ⟨true, ⟨⟨0, 8 / 5, 0⟩, ⟨8, 8 / 5, 0⟩, 1, 1 / 2⟩⟩, some ⟨8, 0, 0⟩⟩ :
          VRScene.Scene ℚ)
        ⟨false, true, onlyForward, none, ⟨0, 0, -1⟩, 1 / 4⟩).position
      = ⟨6, 8 / 5, -5 / 4⟩ := by
  have hf := horizontalForward_rat_negZ
  have hm := moveDirection_onlyForward Rat.sqrt (⟨0, 0, -1⟩ : Vector3 ℚ)
  rw [hf] at hm
  constructor
  · norm_num [VRScene.CameraController.useFrame, Vector3.lerpVectors]
  · norm_num [VRScene.Scene.frame, VRScene.CameraController.useFrame, Vector3.lerpVectors,
      VRScene.PlayerMovement.useFrame, hm, Vector3.length, Vector3.lengthSq,
      Vector3.normalize, Vector3.divideScalar, Vector3.multiplyScalar, canMove,
      Vector3.addScaledVector, playerSpeed]

/-- C2, amended: in a frame in which a request is pending the Locomotion Controller runs
after the Transit Animator and is not gated by the transit.  The position at the end of the
frame is the one the animator set when VR is active, the pointer is Unlocked, no key is held,
the move direction has zero length or the probe blocks; with the pointer Locked, VR off and a
non-zero, unblocked move direction it is the animator's position plus direction * 5 * delta. -/
theorem locomotion_after_transit (sqrt : K → K) (s : VRScene.Scene K) (T : Vector3 K)
    (hpending : s.teleportTarget = some T) (i : VRScene.FrameInput K) :
    (i.isVRMode = true ∨ i.isLocked = false ∨ i.movement = Movement.initial ∨
        ¬ 0 < (moveDirection sqrt i.movement i.worldDirection).length sqrt ∨
        canMove i.collidable
          (VRScene.CameraController.useFrame sqrt (some T) i.delta s.position
            s.controller).position
          (probeDirection sqrt i.movement i.worldDirection) = false →
      (VRScene.Scene.frame sqrt s i).position
        = (VRScene.CameraController.useFrame sqrt (some T) i.delta s.position
            s.controller).position) ∧
    (i.isVRMode = false → i.isLocked = true →
      0 < (moveDirection sqrt i.movement i.worldDirection).length sqrt →
      canMove i.collidable
          (VRScene.CameraController.useFrame sqrt (some T) i.delta s.position
            s.controller).position
          (probeDirection sqrt i.movement i.worldDirection) = true →
      (VRScene.Scene.frame sqrt s i).position
        = ((VRScene.CameraController.useFrame sqrt (some T) i.delta s.position
            s.controller).position).addScaledVector
            (probeDirection sqrt i.movement i.worldDirection) (5 * i.delta)) := by
  constructor
  · intro h
    unfold VRScene.Scene.frame
    rw [hpending]
    simp only
    rcases h with h | h | h | h | h
    · exact VRScene.PlayerMovement.useFrame_gated sqrt i _ (Or.inl h)
    · exact VRScene.PlayerMovement.useFrame_gated sqrt i _ (Or.inr h)
    · rw [h]; exact VRScene.PlayerMovement.useFrame_no_keys sqrt _ _ _ _ _ _
    · unfold VRScene.PlayerMovement.useFrame
      simp [h]
    · unfold VRScene.PlayerMovement.useFrame
      unfold probeDirection at h
      simp [h]
  · intro hvr hl hlen hcm
    unfold VRScene.Scene.frame
    rw [hpending]
    unfold probeDirection at hcm ⊢
    simp only [VRScene.PlayerMovement.useFrame, hvr, hl, hlen, hcm, playerSpeed]
    simp

/-- Witness for C2, amended: the frame of the counterexample; the pending request is for
(8, 0, 0). -/
theorem locomotion_after_transit_witness :
    (VRScene.Scene.frame Rat.sqrt
        (⟨⟨4, 8 / 5, 0⟩, ⟨true, ⟨⟨0, 8 / 5, 0⟩, ⟨8, 8 / 5, 0⟩, 1, 1 / 2⟩⟩, some ⟨8, 0, 0⟩⟩ :
          VRScene.Scene ℚ)
        ⟨false, false, onlyForward, none, ⟨0, 0, -1⟩, 1 / 4⟩).position
      = (VRScene.CameraController.useFrame Rat.sqrt (some ⟨8, 0, 0⟩) (1 / 4)
          (⟨4, 8 / 5, 0⟩ : Vector3 ℚ)
          ⟨true, ⟨⟨0, 8 / 5, 0⟩, ⟨8, 8 / 5, 0⟩, 1, 1 / 2⟩⟩).position :=
  (locomotion_after_transit Rat.sqrt
    (⟨⟨4, 8 / 5, 0⟩, ⟨true, ⟨⟨0, 8 / 5, 0⟩, ⟨8, 8 / 5, 0⟩, 1, 1 / 2⟩⟩, some ⟨8, 0, 0⟩⟩ :
      VRScene.Scene ℚ) ⟨8, 0, 0⟩ rfl
    ⟨false, false, onlyForward, none, ⟨0, 0, -1⟩, 1 / 4⟩).1 (Or.inr (Or.inl rfl))

end PreemptionAmended

/-! ## Ground Reticle Resolver -/

section ReticleTheorems

variable {K : Type} [LinearOrderedField K]

/-- C11, as stated, fails: the pointer is locked, a frame's raycast hits the ground at
(0, 0, -3), the pointer is unlocked and a frame follows; after that frame the reticle is
hidden, yet the published point is still (0, 0, -3). -/
theorem reticle_point_survives_unlock :
    (VRScene.Viewer.run Rat.sqrt false
        (VRScene.Viewer.initial false (⟨0, 8 / 5, 0⟩ : Vector3 ℚ))
        [.lock, .frame ⟨Movement.initial, none, ⟨0, 0, -1⟩, 1 / 60, some [⟨0, 0, -3⟩]⟩,
         .unlock, .frame ⟨Movement.initial, none, ⟨0, 0, -1⟩, 1 / 60, some [⟨0, 0, -3⟩]⟩])
      = { scene := ⟨⟨0, 8 / 5, 0⟩, VRScene.CameraController.initial, none⟩,
          isVRMode := false,
          isLocked := false,
          currentReticlePos := some ⟨0, 0, -3⟩,
          reticleRef := some ⟨false, ⟨0, 2 / 100, -3⟩⟩ } := by
  simp [VRScene.Viewer.run, VRScene.Viewer.step, VRScene.Viewer.initial, VRScene.Viewer.frame,
    VRScene.Scene.frame, VRScene.CameraController.useFrame,
    VRScene.PlayerMovement.useFrame_no_keys, VRScene.TeleportReticle.useFrame]

/-- C11, amended: after every frame of the free-roam viewer (reticle mounted, ground object
present) in which the pointer is Locked, the reticle is visible exactly when that frame's
screen-centre raycast hit the ground, and the published point is defined exactly when the
reticle is visible (it is the nearest hit); after every frame in which the pointer is
Unlocked the reticle is hidden. -/
theorem reticle_state_after_frame (sqrt : K → K) (v : VRScene.Viewer K) (r : VRScene.Reticle K)
    (hr : v.reticleRef = some r) (i : VRScene.ViewerFrame K) (hits : List (Vector3 K))
    (hg : i.ground = some hits) :
    (v.isLocked = true →
      ∃ r2, (v.frame sqrt false i).reticleRef = some r2 ∧
        (r2.visible = true ↔ hits ≠ []) ∧
        ((v.frame sqrt false i).currentReticlePos.isSome = true ↔ r2.visible = true) ∧
        (v.frame sqrt false i).currentReticlePos = hits.head?) ∧
    (v.isLocked = false →
      (v.frame sqrt false i).reticleRef = some { r with visible := false }) := by
  constructor
  · intro hl
    cases hits with
    | nil =>
      exact ⟨{ r with visible := false }, by
        simp [VRScene.Viewer.frame, VRScene.TeleportReticle.useFrame, hr, hl, hg]⟩
    | cons point rest =>
      exact ⟨⟨true, ⟨point.x, point.y + 2 / 100, point.z⟩⟩, by
        simp [VRScene.Viewer.frame, VRScene.TeleportReticle.useFrame, hr, hl, hg]⟩
  · intro hl
    simp [VRScene.Viewer.frame, VRScene.TeleportReticle.useFrame, hr, hl]

/-- Witness for C11, amended: a Locked frame whose raycast hits the ground at (0, 0, -3). -/
theorem reticle_state_after_frame_witness :
    (VRScene.Viewer.frame Rat.sqrt false
        ({ scene := ⟨⟨0, 8 / 5, 0⟩, VRScene.CameraController.initial, none⟩,
           isVRMode := false, isLocked := true, currentReticlePos := none,
           reticleRef := some ⟨false, Vector3.zero⟩ } : VRScene.Viewer ℚ)
        ⟨Movement.initial, none, ⟨0, 0, -1⟩, 1 / 60, some [⟨0, 0, -3⟩]⟩).currentReticlePos
      = some ⟨0, 0, -3⟩ := by
  obtain ⟨r2, _, _, _, h⟩ := (reticle_state_after_frame Rat.sqrt
    ({ scene := ⟨⟨0, 8 / 5, 0⟩, VRScene.CameraController.initial, none⟩,
       isVRMode := false, isLocked := true, currentReticlePos := none,
       reticleRef := some ⟨false, Vector3.zero⟩ } : VRScene.Viewer ℚ)
    ⟨false, Vector3.zero⟩ rfl
    ⟨Movement.initial, none, ⟨0, 0, -1⟩, 1 / 60, some [⟨0, 0, -3⟩]⟩ [⟨0, 0, -3⟩] rfl).1 rfl
  exact h

theorem VRScene.Viewer.step_not_frame_of_no_point (sqrt : K → K) (isEditing : Bool)
    (v : VRScene.Viewer K) (hp : v.currentReticlePos = none) (e : VRScene.ViewerEvent K)
    (he : e.isFrame = false) :
    (VRScene.Viewer.step sqrt isEditing v e).scene = v.scene ∧
    (VRScene.Viewer.step sqrt isEditing v e).currentReticlePos = none := by
  cases e with
  | lock => simp only [VRScene.Viewer.step]; split_ifs <;> exact ⟨rfl, hp⟩
  | unlock => simp only [VRScene.Viewer.step]; split_ifs <;> exact ⟨rfl, hp⟩
  | enterVR => simp only [VRScene.Viewer.step]; split_ifs <;> exact ⟨rfl, hp⟩
  | mouseDown =>
    simp only [VRScene.Viewer.step, VRScene.Viewer.handleMouseClick, hp]
    split_ifs <;> exact ⟨rfl, hp⟩
  | frame i => simp [VRScene.ViewerEvent.isFrame] at he

/-- C12: when the pointer is Locked and the frame's screen-centre raycast does not intersect
the ground, the reticle becomes invisible and the published point is cleared; whatever clicks
and lock events are handled before the next frame, no request is created and the teleport
target stays as the frame left it. -/
theorem ground_miss_clears_point (sqrt : K → K) (v : VRScene.Viewer K) (r : VRScene.Reticle K)
    (hr : v.reticleRef = some r) (hl : v.isLocked = true) (i : VRScene.ViewerFrame K)
    (hg : i.ground = some []) (es : List (VRScene.ViewerEvent K))
    (hes : ∀ e ∈ es, e.isFrame = false) :
    (v.frame sqrt false i).reticleRef = some { r with visible := false } ∧
    (v.frame sqrt false i).currentReticlePos = none ∧
    (v.frame sqrt false i).handleMouseClick = v.frame sqrt false i ∧
    (VRScene.Viewer.run sqrt false (v.frame sqrt false i) es).scene
      = (v.frame sqrt false i).scene := by
  have hp : (v.frame sqrt false i).currentReticlePos = none := by
    simp [VRScene.Viewer.frame, VRScene.TeleportReticle.useFrame, hr, hl, hg]
  refine ⟨?_, hp, ?_, ?_⟩
  · simp [VRScene.Viewer.frame, VRScene.TeleportReticle.useFrame, hr, hl, hg]
  · simp only [VRScene.Viewer.handleMouseClick, hp]
    split_ifs <;> rfl
  · generalize v.frame sqrt false i = w at hp
    unfold VRScene.Viewer.run
    induction es generalizing w with
    | nil => rfl
    | cons e es ih =>
      obtain ⟨h1, h2⟩ := VRScene.Viewer.step_not_frame_of_no_point sqrt false w hp e
        (hes e (List.mem_cons_self _ _))
      rw [List.foldl_cons, ih (fun k hk => hes k (List.mem_cons_of_mem _ hk)) _ h2, h1]

/-- Witness for C12: a Locked frame looking at the sky after a hit had been published, then a
click, an unlock, a lock and a click. -/
theorem ground_miss_clears_point_witness :
    (VRScene.Viewer.run Rat.sqrt false
        (VRScene.Viewer.frame Rat.sqrt false
          ({ scene := ⟨⟨0, 8 / 5, 0⟩, VRScene.CameraController.initial, none⟩,
             isVRMode := false, isLocked := true, currentReticlePos := some ⟨0, 0, -3⟩,
             reticleRef := some ⟨true, ⟨0, 2 / 100, -3⟩⟩ } : VRScene.Viewer ℚ)
          ⟨Movement.initial, none, ⟨0, 1, 0⟩, 1 / 60, some []⟩)
        [.mouseDown, .unlock, .lock, .mouseDown]).scene
      = (VRScene.Viewer.frame Rat.sqrt false
          ({ scene := ⟨⟨0, 8 / 5, 0⟩, VRScene.CameraController.initial, none⟩,
             isVRMode := false, isLocked := true, currentReticlePos := some ⟨0, 0, -3⟩,
             reticleRef := some ⟨true, ⟨0, 2 / 100, -3⟩⟩ } : VRScene.Viewer ℚ)
          ⟨Movement.initial, none, ⟨0, 1, 0⟩, 1 / 60, some []⟩).scene :=
  (ground_miss_clears_point Rat.sqrt
    ({ scene := ⟨⟨0, 8 / 5, 0⟩, VRScene.CameraController.initial, none⟩,
       isVRMode := false, isLocked := true, currentReticlePos := some ⟨0, 0, -3⟩,
       reticleRef := some ⟨true, ⟨0, 2 / 100, -3⟩⟩ } : VRScene.Viewer ℚ)
    ⟨true, ⟨0, 2 / 100, -3⟩⟩ rfl rfl
    ⟨Movement.initial, none, ⟨0, 1, 0⟩, 1 / 60, some []⟩ rfl
    [.mouseDown, .unlock, .lock, .mouseDown] (by simp [VRScene.ViewerEvent.isFrame])).2.2.2

end ReticleTheorems

/-! ## Zero-distance transit, lock independence, editing mode, VR mode -/

section ViewerTheorems

variable {K : Type} [LinearOrderedField K]

/-- C13: when the request target has the X and Z of the camera position `P`, the first frame
completes the transit for every frame delta: the duration is 0 and the progress is set to 1
without any division, the camera stays exactly at `P`, completion is signalled, the request is
cleared, and the next frame signals nothing. -/
theorem zero_distance_transit (sqrt : K → K) (h0 : sqrt 0 = 0) (P T : Vector3 K)
    (hx : T.x = P.x) (hz : T.z = P.z) (c : VRScene.CameraController K)
    (hidle : c.isMoving = false) (i j : VRScene.FrameInput K)
    (hkeys : i.movement = Movement.initial) :
    VRScene.CameraController.useFrame sqrt (some T) i.delta P c
      = ⟨P, ⟨false, ⟨P, P, 0, 1⟩⟩, true⟩ ∧
    VRScene.Scene.frame sqrt ⟨P, c, some T⟩ i = ⟨P, ⟨false, ⟨P, P, 0, 1⟩⟩, none⟩ ∧
    (VRScene.CameraController.useFrame sqrt
        (VRScene.Scene.frame sqrt ⟨P, c, some T⟩ i).teleportTarget j.delta
        (VRScene.Scene.frame sqrt ⟨P, c, some T⟩ i).position
        (VRScene.Scene.frame sqrt ⟨P, c, some T⟩ i).controller).moveComplete = false := by
  have hend : (⟨T.x, P.y, T.z⟩ : Vector3 K) = P := by rw [hx, hz]
  have hms : VRScene.CameraController.beginMove sqrt P T = ⟨P, P, 0, 0⟩ := by
    unfold VRScene.CameraController.beginMove
    simp only [hend]
    simp [Vector3.distanceTo, Vector3.distanceToSquared, h0]
  have h1 : VRScene.CameraController.useFrame sqrt (some T) i.delta P c
      = ⟨P, ⟨false, ⟨P, P, 0, 1⟩⟩, true⟩ := by
    unfold VRScene.CameraController.useFrame
    simp [hidle, hms]
  have h2 : VRScene.Scene.frame sqrt ⟨P, c, some T⟩ i = ⟨P, ⟨false, ⟨P, P, 0, 1⟩⟩, none⟩ := by
    unfold VRScene.Scene.frame
    simp only [h1, hkeys, VRScene.PlayerMovement.useFrame_no_keys, if_true]
  refine ⟨h1, h2, ?_⟩
  rw [h2]
  rfl

/-- Witness for C13: camera at (2, 1.6, -3), request for (2, 0, -3), delta 1/60. -/
theorem zero_distance_transit_witness :
    VRScene.Scene.frame Rat.sqrt
        (⟨⟨2, 8 / 5, -3⟩, VRScene.CameraController.initial, some ⟨2, 0, -3⟩⟩ : VRScene.Scene ℚ)
        ⟨false, true, Movement.initial, none, ⟨0, 0, -1⟩, 1 / 60⟩
      = ⟨⟨2, 8 / 5, -3⟩, ⟨false, ⟨⟨2, 8 / 5, -3⟩, ⟨2, 8 / 5, -3⟩, 0, 1⟩⟩, none⟩ :=
  (zero_distance_transit Rat.sqrt (by simp) (⟨2, 8 / 5, -3⟩ : Vector3 ℚ) ⟨2, 0, -3⟩ rfl rfl
    VRScene.CameraController.initial rfl
    ⟨false, true, Movement.initial, none, ⟨0, 0, -1⟩, 1 / 60⟩
    ⟨false, true, Movement.initial, none, ⟨0, 0, -1⟩, 1 / 60⟩ rfl).2.1

theorem VRScene.Scene.frame_no_keys_indep (sqrt : K → K) (s : VRScene.Scene K)
    (i j : VRScene.FrameInput K) (hi : i.movement = Movement.initial)
    (hj : j.movement = Movement.initial) (hd : i.delta = j.delta) :
    VRScene.Scene.frame sqrt s i = VRScene.Scene.frame sqrt s j := by
  unfold VRScene.Scene.frame
  simp only [hi, hj, hd, VRScene.PlayerMovement.useFrame_no_keys]

theorem VRScene.Viewer.step_scene (sqrt : K → K) (isEditing : Bool) (v : VRScene.Viewer K)
    (e : VRScene.ViewerEvent K) (hm : e.isMouseDown = false) (hk : e.holdsKey = false) :
    (VRScene.Viewer.step sqrt isEditing v e).scene
      = match e.animatorInput with
        | some i => VRScene.Scene.frame sqrt v.scene i
        | none => v.scene := by
  cases e with
  | lock => simp only [VRScene.Viewer.step, VRScene.ViewerEvent.animatorInput]; split_ifs <;> rfl
  | unlock =>
    simp only [VRScene.Viewer.step, VRScene.ViewerEvent.animatorInput]; split_ifs <;> rfl
  | enterVR =>
    simp only [VRScene.Viewer.step, VRScene.ViewerEvent.animatorInput]; split_ifs <;> rfl
  | mouseDown => simp [VRScene.ViewerEvent.isMouseDown] at hm
  | frame i =>
    have hi : i.movement = Movement.initial := by
      simpa [VRScene.ViewerEvent.holdsKey] using hk
    have h := VRScene.Scene.frame_no_keys_indep sqrt v.scene
      ⟨v.isVRMode, v.isLocked, i.movement, i.collidable, i.worldDirection, i.delta⟩
      ⟨false, false, Movement.initial, none, Vector3.zero, i.delta⟩ hi rfl rfl
    simp only [VRScene.Viewer.step, VRScene.Viewer.frame, VRScene.ViewerEvent.animatorInput]
    split_ifs <;> exact h

theorem VRScene.Viewer.run_scene (sqrt : K → K) (isEditing : Bool)
    (es : List (VRScene.ViewerEvent K))
    (hes : ∀ e ∈ es, e.isMouseDown = false ∧ e.holdsKey = false) (v : VRScene.Viewer K) :
    (VRScene.Viewer.run sqrt isEditing v es).scene
      = VRScene.Scene.frames sqrt v.scene (es.filterMap VRScene.ViewerEvent.animatorInput) := by
  induction es generalizing v with
  | nil => rfl
  | cons e es ih =>
    have he := hes e (List.mem_cons_self _ _)
    have hs := VRScene.Viewer.step_scene sqrt isEditing v e he.1 he.2
    have ht := ih (fun k hk => hes k (List.mem_cons_of_mem _ hk))
      (VRScene.Viewer.step sqrt isEditing v e)
    unfold VRScene.Viewer.run at ht ⊢
    rw [List.foldl_cons, ht, hs]
    cases hin : e.animatorInput with
    | none => simp [List.filterMap_cons, hin]
    | some i => simp [List.filterMap_cons, hin, VRScene.Scene.frames]

theorem VRScene.ViewerEvent.animatorInput_filter (es : List (VRScene.ViewerEvent K)) :
    (es.filter (fun e => !e.isLockEvent)).filterMap VRScene.ViewerEvent.animatorInput
      = es.filterMap VRScene.ViewerEvent.animatorInput := by
  induction es with
  | nil => rfl
  | cons e es ih =>
    by_cases hl : e.isLockEvent = true
    · have hn : e.animatorInput = none := by
        cases e <;> simp_all [VRScene.ViewerEvent.isLockEvent, VRScene.ViewerEvent.animatorInput]
      rw [List.filter_cons]
      simp only [hl, Bool.not_true, Bool.false_eq_true, if_false]
      rw [ih, List.filterMap_cons, hn]
    · rw [List.filter_cons]
      simp only [Bool.not_eq_true] at hl
      simp only [hl, Bool.not_false, if_true]
      rw [List.filterMap_cons, List.filterMap_cons, ih]

/-- C14: two runs of the free-roam viewer from the same state that differ only in the lock and
unlock events they contain (no movement key held, no click) leave the animator and the camera
in the same state: same start, end, duration and progress, same pending request, same camera
position.  As this holds for every pair of such runs, it holds after each frame of the two
runs, so the transit completes on the same frame; an unlock neither cancels nor pauses it. -/
theorem transit_independent_of_lock (sqrt : K → K) (isEditing : Bool) (v : VRScene.Viewer K)
    (es1 es2 : List (VRScene.ViewerEvent K))
    (h1 : ∀ e ∈ es1, e.isMouseDown = false ∧ e.holdsKey = false)
    (h2 : ∀ e ∈ es2, e.isMouseDown = false ∧ e.holdsKey = false)
    (hsame : es1.filter (fun e => !e.isLockEvent) = es2.filter (fun e => !e.isLockEvent)) :
    (VRScene.Viewer.run sqrt isEditing v es1).scene
      = (VRScene.Viewer.run sqrt isEditing v es2).scene := by
  rw [VRScene.Viewer.run_scene sqrt isEditing es1 h1, VRScene.Viewer.run_scene sqrt isEditing es2 h2,
    ← VRScene.ViewerEvent.animatorInput_filter es1, ← VRScene.ViewerEvent.animatorInput_filter es2,
    hsame]

/-- Witness for C14: a transit from (0, 1.6, 0) to (8, 1.6, 0) at 50%; one run loses the lock
between its two frames, the other acquires it before them; both end with the transit
completed at (8, 1.6, 0). -/
theorem transit_independent_of_lock_witness :
    (VRScene.Viewer.run Rat.sqrt false
        ({ scene := ⟨⟨4, 8 / 5, 0⟩, ⟨true, ⟨⟨0, 8 / 5, 0⟩, ⟨8, 8 / 5, 0⟩, 1, 1 / 2⟩⟩,
             some ⟨8, 0, 0⟩⟩,
           isVRMode := false, isLocked := true, currentReticlePos := none,
           reticleRef := some ⟨false, Vector3.zero⟩ } : VRScene.Viewer ℚ)
        [.frame ⟨Movement.initial, none, ⟨0, 0, -1⟩, 1 / 4, some []⟩, .unlock,
         .frame ⟨Movement.initial, none, ⟨0, 0, -1⟩, 1 / 4, some []⟩]).scene
      = (VRScene.Viewer.run Rat.sqrt false
        ({ scene := ⟨⟨4, 8 / 5, 0⟩, ⟨true, ⟨⟨0, 8 / 5, 0⟩, ⟨8, 8 / 5, 0⟩, 1, 1 / 2⟩⟩,
             some ⟨8, 0, 0⟩⟩,
           isVRMode := false, isLocked := true, currentReticlePos := none,
           reticleRef := some ⟨false, Vector3.zero⟩ } : VRScene.Viewer ℚ)
        [.lock, .frame ⟨Movement.initial, none, ⟨0, 0, -1⟩, 1 / 4, some []⟩,
         .frame ⟨Movement.initial, none, ⟨0, 0, -1⟩, 1 / 4, some []⟩]).scene :=
  transit_independent_of_lock Rat.sqrt false _ _ _
    (by simp [VRScene.ViewerEvent.isMouseDown, VRScene.ViewerEvent.holdsKey])
    (by simp [VRScene.ViewerEvent.isMouseDown, VRScene.ViewerEvent.holdsKey])
    (by simp [List.filter_cons, VRScene.ViewerEvent.isLockEvent])

end ViewerTheorems

section ModeTheorems

variable {K : Type} [LinearOrderedField K]

theorem VRScene.Scene.frame_no_request (sqrt : K → K) (p : Vector3 K)
    (c : VRScene.CameraController K) (i : VRScene.FrameInput K) :
    (VRScene.Scene.frame sqrt ⟨p, c, none⟩ i).controller = c ∧
    (VRScene.Scene.frame sqrt ⟨p, c, none⟩ i).teleportTarget = none := by
  simp [VRScene.Scene.frame, VRScene.CameraController.useFrame]

theorem VRScene.Viewer.step_editing (sqrt : K → K) (w : VRScene.Viewer K)
    (e : VRScene.ViewerEvent K)
    (h : w.currentReticlePos = none ∧ w.reticleRef = none ∧ w.scene.teleportTarget = none ∧
      w.scene.controller = VRScene.CameraController.initial) :
    (VRScene.Viewer.step sqrt true w e).currentReticlePos = none ∧
    (VRScene.Viewer.step sqrt true w e).reticleRef = none ∧
    (VRScene.Viewer.step sqrt true w e).scene.teleportTarget = none ∧
    (VRScene.Viewer.step sqrt true w e).scene.controller = VRScene.CameraController.initial := by
  obtain ⟨h1, h2, h3, h4⟩ := h
  cases e with
  | lock => simp only [VRScene.Viewer.step]; split_ifs <;> exact ⟨h1, h2, h3, h4⟩
  | unlock => simp only [VRScene.Viewer.step]; split_ifs <;> exact ⟨h1, h2, h3, h4⟩
  | enterVR => exact ⟨h1, h2, h3, h4⟩
  | mouseDown =>
    simp only [VRScene.Viewer.step, VRScene.Viewer.handleMouseClick, h1]
    split_ifs <;> exact ⟨h1, h2, h3, h4⟩
  | frame i =>
    rcases hs : w.scene with ⟨p, c, t⟩
    simp only [hs] at h3 h4
    subst h3
    have hf := VRScene.Scene.frame_no_request sqrt p c
      ⟨w.isVRMode, w.isLocked, i.movement, i.collidable, i.worldDirection, i.delta⟩
    simp only [VRScene.Viewer.step, VRScene.Viewer.frame, hs, if_true]
    exact ⟨h1, h2, hf.2, hf.1.trans h4⟩

/-- C18: in editing mode, from the mounted viewer and through every sequence of frames, lock
and unlock events, clicks and VR requests, the published reticle point stays undefined, the
reticle is not mounted, the teleport target stays null and the animator stays idle: its frame
callback leaves the camera position as it is and signals nothing. -/
theorem editing_disables_reticle_and_transit (sqrt : K → K) (startPosition : Vector3 K)
    (es : List (VRScene.ViewerEvent K)) (delta : K) :
    (VRScene.Viewer.run sqrt true (VRScene.Viewer.initial true startPosition) es).currentReticlePos
      = none ∧
    (VRScene.Viewer.run sqrt true (VRScene.Viewer.initial true startPosition) es).reticleRef
      = none ∧
    (VRScene.Viewer.run sqrt true (VRScene.Viewer.initial true startPosition)
      es).scene.teleportTarget = none ∧
    VRScene.CameraController.useFrame sqrt
        (VRScene.Viewer.run sqrt true (VRScene.Viewer.initial true startPosition)
          es).scene.teleportTarget delta
        (VRScene.Viewer.run sqrt true (VRScene.Viewer.initial true startPosition)
          es).scene.position
        (VRScene.Viewer.run sqrt true (VRScene.Viewer.initial true startPosition)
          es).scene.controller
      = ⟨(VRScene.Viewer.run sqrt true (VRScene.Viewer.initial true startPosition)
          es).scene.position, VRScene.CameraController.initial, false⟩ := by
  have key : ∀ (es : List (VRScene.ViewerEvent K)) (w : VRScene.Viewer K),
      (w.currentReticlePos = none ∧ w.reticleRef = none ∧ w.scene.teleportTarget = none ∧
        w.scene.controller = VRScene.CameraController.initial) →
      ((VRScene.Viewer.run sqrt true w es).currentReticlePos = none ∧
        (VRScene.Viewer.run sqrt true w es).reticleRef = none ∧
        (VRScene.Viewer.run sqrt true w es).scene.teleportTarget = none ∧
        (VRScene.Viewer.run sqrt true w es).scene.controller
          = VRScene.CameraController.initial) := by
    intro es
    induction es with
    | nil => intro w h; exact h
    | cons e es ih =>
      intro w h
      have := ih _ (VRScene.Viewer.step_editing sqrt w e h)
      simpa [VRScene.Viewer.run] using this
  obtain ⟨h1, h2, h3, h4⟩ := key es (VRScene.Viewer.initial true startPosition)
    ⟨rfl, rfl, rfl, rfl⟩
  refine ⟨h1, h2, h3, ?_⟩
  rw [h3, h4]
  rfl

/-- C20, as stated, fails: the pointer is locked, VR mode is entered, a frame's raycast hits
the ground at (0, 0, -3) and a click follows; with VR active the reticle is visible, the point
is published and the click has formed a request for it. -/
theorem reticle_runs_in_vr_when_locked :
    (VRScene.Viewer.run Rat.sqrt false
        (VRScene.Viewer.initial false (⟨0, 8 / 5, 0⟩ : Vector3 ℚ))
        [.lock, .enterVR,
         .frame ⟨Movement.initial, none, ⟨0, 0, -1⟩, 1 / 60, some [⟨0, 0, -3⟩]⟩, .mouseDown])
      = { scene := ⟨⟨0, 8 / 5, 0⟩, VRScene.CameraController.initial, some ⟨0, 0, -3⟩⟩,
          isVRMode := true,
          isLocked := true,
          currentReticlePos := some ⟨0, 0, -3⟩,
          reticleRef := some ⟨true, ⟨0, 2 / 100, -3⟩⟩ } := by
  simp [VRScene.Viewer.run, VRScene.Viewer.step, VRScene.Viewer.initial, VRScene.Viewer.frame,
    VRScene.Scene.frame, VRScene.CameraController.useFrame,
    VRScene.PlayerMovement.useFrame_no_keys, VRScene.TeleportReticle.useFrame,
    VRScene.Viewer.handleMouseClick, VRScene.Scene.setTeleportTarget]

theorem VRScene.Viewer.step_vr_unlocked (sqrt : K → K) (r : VRScene.Reticle K)
    (p : Option (Vector3 K)) (t : Option (Vector3 K)) (w : VRScene.Viewer K)
    (e : VRScene.ViewerEvent K)
    (h : w.isVRMode = true ∧ w.isLocked = false ∧
      (w.reticleRef = some r ∨ w.reticleRef = some { r with visible := false }) ∧
      w.currentReticlePos = p ∧ (w.scene.teleportTarget = t ∨ w.scene.teleportTarget = none)) :
    (VRScene.Viewer.step sqrt false w e).isVRMode = true ∧
    (VRScene.Viewer.step sqrt false w e).isLocked = false ∧
    ((VRScene.Viewer.step sqrt false w e).reticleRef = some r ∨
      (VRScene.Viewer.step sqrt false w e).reticleRef = some { r with visible := false }) ∧
    (VRScene.Viewer.step sqrt false w e).currentReticlePos = p ∧
    ((VRScene.Viewer.step sqrt false w e).scene.teleportTarget = t ∨
      (VRScene.Viewer.step sqrt false w e).scene.teleportTarget = none) := by
  obtain ⟨h1, h2, h3, h4, h5⟩ := h
  cases e with
  | lock =>
    have hstep : VRScene.Viewer.step sqrt false w .lock = w := by
      simp [VRScene.Viewer.step, h1]
    rw [hstep]; exact ⟨h1, h2, h3, h4, h5⟩
  | unlock =>
    have hstep : VRScene.Viewer.step sqrt false w .unlock = w := by
      simp [VRScene.Viewer.step, h1]
    rw [hstep]; exact ⟨h1, h2, h3, h4, h5⟩
  | enterVR => exact ⟨rfl, h2, h3, h4, h5⟩
  | mouseDown =>
    have hstep : VRScene.Viewer.step sqrt false w .mouseDown = w := by
      simp [VRScene.Viewer.step, VRScene.Viewer.handleMouseClick, h2]
    rw [hstep]; exact ⟨h1, h2, h3, h4, h5⟩
  | frame i =>
    refine ⟨h1, h2, ?_, ?_, ?_⟩ <;>
      simp only [VRScene.Viewer.step, VRScene.Viewer.frame, Bool.false_eq_true, if_false]
    · rcases h3 with h3 | h3 <;>
        simp [VRScene.TeleportReticle.useFrame, h3, h2]
    · rcases h3 with h3 | h3 <;>
        simp [VRScene.TeleportReticle.useFrame, h3, h2, h4]
    · simp only [VRScene.Scene.frame]
      split_ifs
      · exact Or.inr rfl
      · exact h5

/-- C20, amended: the Ground Reticle Resolver is gated by the lock state, not by VR mode.
While VR mode is active and the pointer is Unlocked, through every sequence of events VR stays
active and the pointer Unlocked (no lock is acquired in VR), no frame makes the reticle
visible or publishes a point, and no click forms a request (the teleport target is the one
there was, or null once a pending transit completes).  With the pointer Locked a frame leaves
the reticle and the published point the same whether VR mode is active or not. -/
theorem reticle_gated_by_lock_not_vr (sqrt : K → K) (v : VRScene.Viewer K)
    (hvr : v.isVRMode = true) (hl : v.isLocked = false) (r : VRScene.Reticle K)
    (hr : v.reticleRef = some r) (es : List (VRScene.ViewerEvent K))
    (i : VRScene.ViewerFrame K) :
    (VRScene.Viewer.run sqrt false v es).isVRMode = true ∧
    (VRScene.Viewer.run sqrt false v es).isLocked = false ∧
    ((VRScene.Viewer.run sqrt false v es).reticleRef = some r ∨
      (VRScene.Viewer.run sqrt false v es).reticleRef = some { r with visible := false }) ∧
    (VRScene.Viewer.run sqrt false v es).currentReticlePos = v.currentReticlePos ∧
    ((VRScene.Viewer.run sqrt false v es).scene.teleportTarget = v.scene.teleportTarget ∨
      (VRScene.Viewer.run sqrt false v es).scene.teleportTarget = none) ∧
    (VRScene.Viewer.frame sqrt false { v with isLocked := true } i).reticleRef
      = (VRScene.Viewer.frame sqrt false
          { v with isLocked := true, isVRMode := false } i).reticleRef ∧
    (VRScene.Viewer.frame sqrt false { v with isLocked := true } i).currentReticlePos
      = (VRScene.Viewer.frame sqrt false
          { v with isLocked := true, isVRMode := false } i).currentReticlePos := by
  have key : ∀ (es : List (VRScene.ViewerEvent K)) (w : VRScene.Viewer K),
      (w.isVRMode = true ∧ w.isLocked = false ∧
        (w.reticleRef = some r ∨ w.reticleRef = some { r with visible := false }) ∧
        w.currentReticlePos = v.currentReticlePos ∧
        (w.scene.teleportTarget = v.scene.teleportTarget ∨ w.scene.teleportTarget = none)) →
      ((VRScene.Viewer.run sqrt false w es).isVRMode = true ∧
        (VRScene.Viewer.run sqrt false w es).isLocked = false ∧
        ((VRScene.Viewer.run sqrt false w es).reticleRef = some r ∨
          (VRScene.Viewer.run sqrt false w es).reticleRef = some { r with visible := false }) ∧
        (VRScene.Viewer.run sqrt false w es).currentReticlePos = v.currentReticlePos ∧
        ((VRScene.Viewer.run sqrt false w es).scene.teleportTarget = v.scene.teleportTarget ∨
          (VRScene.Viewer.run sqrt false w es).scene.teleportTarget = none)) := by
    intro es
    induction es with
    | nil => intro w h; exact h
    | cons e es ih =>
      intro w h
      have := ih _ (VRScene.Viewer.step_vr_unlocked sqrt r _ _ w e h)
      simpa [VRScene.Viewer.run] using this
  obtain ⟨h1, h2, h3, h4, h5⟩ := key es v ⟨hvr, hl, Or.inl hr, rfl, Or.inl rfl⟩
  exact ⟨h1, h2, h3, h4, h5, rfl, rfl⟩

/-- Witness for C20, amended: VR active, pointer Unlocked, reticle hidden, a point left over;
a frame whose ray would hit the ground and a click change nothing. -/
theorem reticle_gated_by_lock_not_vr_witness :
    (VRScene.Viewer.run Rat.sqrt false
        ({ scene := ⟨⟨0, 8 / 5, 0⟩, VRScene.CameraController.initial, none⟩,
           isVRMode := true, isLocked := false, currentReticlePos := some ⟨0, 0, -3⟩,
           reticleRef := some ⟨false, ⟨0, 2 / 100, -3⟩⟩ } : VRScene.Viewer ℚ)
        [.lock, .frame ⟨Movement.initial, none, ⟨0, 0, -1⟩, 1 / 60, some [⟨0, 0, -5⟩]⟩,
         .mouseDown]).isLocked = false :=
  (reticle_gated_by_lock_not_vr Rat.sqrt
    ({ scene := ⟨⟨0, 8 / 5, 0⟩, VRScene.CameraController.initial, none⟩,
       isVRMode := true, isLocked := false, currentReticlePos := some ⟨0, 0, -3⟩,
       reticleRef := some ⟨false, ⟨0, 2 / 100, -3⟩⟩ } : VRScene.Viewer ℚ)
    rfl rfl ⟨false, ⟨0, 2 / 100, -3⟩⟩ rfl
    [.lock, .frame ⟨Movement.initial, none, ⟨0, 0, -1⟩, 1 / 60, some [⟨0, 0, -5⟩]⟩, .mouseDown]
    ⟨Movement.initial, none, ⟨0, 0, -1⟩, 1 / 60, some [⟨0, 0, -5⟩]⟩).2.1

end ModeTheorems

/-! ## Guided view -/

section GuidedTheorems

variable {K : Type} [LinearOrderedField K]

theorem Page.PlayerMovement.useFrame_no_keys_page (sqrt : K → K) (isVRMode : Bool)
    (controlsIsLocked : Option Bool) (dir : Vector3 K) (delta : K) (p : Vector3 K) :
    Page.PlayerMovement.useFrame sqrt isVRMode controlsIsLocked Movement.initial dir delta p
      = p := by
  unfold Page.PlayerMovement.useFrame
  rw [moveDirection_initial]
  have hz : ∀ a : K, (Vector3.zero : Vector3 K).divideScalar a = Vector3.zero := by
    intro a
    simp [Vector3.divideScalar, Vector3.multiplyScalar, Vector3.zero]
  have hadd : ∀ a : K, p.addScaledVector Vector3.zero a = p := by
    intro a
    simp [Vector3.addScaledVector, Vector3.zero]
  simp only [Vector3.normalize, hz, hadd]
  split_ifs <;> rfl

/-- C15: evaluation of the code where it departs from the claim.  Camera at (0, 1.6, 9)
looking along +X, nothing pending, no active waypoint, VR off: the poll marks waypoint 2
("Overview", 1 unit away) active and stores its look-at target (0, 0, -8), but creates no
request (`targetPosition` stays null), so the following frames leave the animator idle and
the camera still looks along +X. -/
theorem proximity_poll_does_not_start_transit :
    Page.Scene.checkWaypoints Rat.sqrt false
        ({ position := ⟨0, 8 / 5, 9⟩, worldDirection := ⟨1, 0, 0⟩,
           controller := ⟨false, Vector3.zero, 0⟩, targetPosition := none,
           targetLookAt := none, activeWaypoint := none } : Page.Scene ℚ)
      = { position := ⟨0, 8 / 5, 9⟩, worldDirection := ⟨1, 0, 0⟩,
          controller := ⟨false, Vector3.zero, 0⟩, targetPosition := none,
          targetLookAt := some ⟨0, 0, -8⟩, activeWaypoint := some 2 } ∧
    Page.Scene.frames Rat.sqrt
        ({ position := ⟨0, 8 / 5, 9⟩, worldDirection := ⟨1, 0, 0⟩,
           controller := ⟨false, Vector3.zero, 0⟩, targetPosition := none,
           targetLookAt := some ⟨0, 0, -8⟩, activeWaypoint := some 2 } : Page.Scene ℚ)
        [⟨false, none, Movement.initial, 1 / 60⟩, ⟨false, some true, Movement.initial, 1 / 2⟩,
         ⟨false, none, Movement.initial, 1⟩]
      = { position := ⟨0, 8 / 5, 9⟩, worldDirection := ⟨1, 0, 0⟩,
          controller := ⟨false, Vector3.zero, 0⟩, targetPosition := none,
          targetLookAt := some ⟨0, 0, -8⟩, activeWaypoint := some 2 } := by
  constructor
  · norm_num [Page.Scene.checkWaypoints, Page.WAYPOINTS, List.enum, List.enumFrom,
      Vector3.distanceTo, Vector3.distanceToSquared]
    intro h
    cases h
  · simp [Page.Scene.frames, Page.Scene.frame, Page.CameraController.useFrame,
      Page.CameraController.worldDirectionAfter, Page.PlayerMovement.useFrame_no_keys_page]

end GuidedTheorems
section WaypointTheorems

variable {K : Type} [LinearOrderedField K]

/-- Two points both closer than 2 to a third one are less than 4 apart, in squared form. -/
theorem Vector3.distanceToSquared_lt_of_near (p b c : Vector3 K)
    (hb : p.distanceToSquared b < 4) (hc : p.distanceToSquared c < 4) :
    b.distanceToSquared c < 16 := by
  unfold Vector3.distanceToSquared at *
  nlinarith [sq_nonneg ((p.x - b.x) + (p.x - c.x)), sq_nonneg ((p.y - b.y) + (p.y - c.y)),
    sq_nonneg ((p.z - b.z) + (p.z - c.z))]

theorem Vector3.distanceToSquared_nonneg (a b : Vector3 K) : 0 ≤ a.distanceToSquared b := by
  unfold Vector3.distanceToSquared
  nlinarith [mul_self_nonneg (a.x - b.x), mul_self_nonneg (a.y - b.y),
    mul_self_nonneg (a.z - b.z)]

/-- In the table `WAYPOINTS` a camera within the radius of one entry is within the radius of
no other. -/
theorem Page.WAYPOINTS_near_unique (sqrt : K → K) (hsqrt : ∀ x, 0 ≤ x → sqrt x < 2 → x < 4)
    (p : Vector3 K) (a b : Nat) (wa wb : Page.Waypoint K)
    (ha : (Page.WAYPOINTS : List (Page.Waypoint K))[a]? = some wa)
    (hb : (Page.WAYPOINTS : List (Page.Waypoint K))[b]? = some wb) (hab : a ≠ b)
    (hnear : p.distanceTo sqrt wb.position < 2) :
    ¬ p.distanceTo sqrt wa.position < 2 := by
  intro hnear2
  have h1 := hsqrt _ (Vector3.distanceToSquared_nonneg p wb.position) hnear
  have h2 := hsqrt _ (Vector3.distanceToSquared_nonneg p wa.position) hnear2
  have h3 := Vector3.distanceToSquared_lt_of_near p wa.position wb.position h2 h1
  have ha4 : a < 4 := by
    by_contra h
    have : (Page.WAYPOINTS : List (Page.Waypoint K)).length ≤ a := by
      simp [Page.WAYPOINTS]; omega
    rw [List.getElem?_eq_none this] at ha
    cases ha
  have hb4 : b < 4 := by
    by_contra h
    have : (Page.WAYPOINTS : List (Page.Waypoint K)).length ≤ b := by
      simp [Page.WAYPOINTS]; omega
    rw [List.getElem?_eq_none this] at hb
    cases hb
  interval_cases a <;> interval_cases b <;>
    first
    | exact absurd rfl hab
    | (simp [Page.WAYPOINTS] at ha hb
       subst ha hb
       norm_num [Vector3.distanceToSquared] at h3)

theorem Page.Scene.checkWaypoints_near (sqrt : K → K)
    (hsqrt : ∀ x, 0 ≤ x → sqrt x < 2 → x < 4) (s : Page.Scene K) (b : Nat)
    (wb : Page.Waypoint K) (hb : (Page.WAYPOINTS : List (Page.Waypoint K))[b]? = some wb)
    (hactive : s.activeWaypoint ≠ some b)
    (hnear : s.position.distanceTo sqrt wb.position < 2) :
    Page.Scene.checkWaypoints sqrt false s
      = { s with targetLookAt := some wb.target, activeWaypoint := some b } := by
  have h0 : b ≠ 0 → ¬ s.position.distanceTo sqrt ⟨5, 8 / 5, 5⟩ < 2 := fun h =>
    Page.WAYPOINTS_near_unique sqrt hsqrt s.position 0 b ⟨⟨5, 8 / 5, 5⟩, ⟨0, 0, 0⟩, "View Center"⟩
      wb (by simp [Page.WAYPOINTS]) hb (Ne.symm h) hnear
  have h1 : b ≠ 1 → ¬ s.position.distanceTo sqrt ⟨-5, 8 / 5, -5⟩ < 2 := fun h =>
    Page.WAYPOINTS_near_unique sqrt hsqrt s.position 1 b
      ⟨⟨-5, 8 / 5, -5⟩, ⟨5, 0, 5⟩, "View Building"⟩
      wb (by simp [Page.WAYPOINTS]) hb (Ne.symm h) hnear
  have h2 : b ≠ 2 → ¬ s.position.distanceTo sqrt ⟨0, 8 / 5, 8⟩ < 2 := fun h =>
    Page.WAYPOINTS_near_unique sqrt hsqrt s.position 2 b ⟨⟨0, 8 / 5, 8⟩, ⟨0, 0, -8⟩, "Overview"⟩
      wb (by simp [Page.WAYPOINTS]) hb (Ne.symm h) hnear
  have h3 : b ≠ 3 → ¬ s.position.distanceTo sqrt ⟨8, 8 / 5, 0⟩ < 2 := fun h =>
    Page.WAYPOINTS_near_unique sqrt hsqrt s.position 3 b ⟨⟨8, 8 / 5, 0⟩, ⟨-8, 0, 0⟩, "Side View"⟩
      wb (by simp [Page.WAYPOINTS]) hb (Ne.symm h) hnear
  have hb4 : b < 4 := by
    by_contra h
    have : (Page.WAYPOINTS : List (Page.Waypoint K)).length ≤ b := by
      simp [Page.WAYPOINTS]; omega
    rw [List.getElem?_eq_none this] at hb
    cases hb
  interval_cases b
  · simp [Page.WAYPOINTS] at hb
    subst hb
    simp [Page.Scene.checkWaypoints, Page.WAYPOINTS, List.enum, List.enumFrom, h1, h2, h3,
      hnear, hactive]
  · simp [Page.WAYPOINTS] at hb
    subst hb
    simp [Page.Scene.checkWaypoints, Page.WAYPOINTS, List.enum, List.enumFrom, h0, h2, h3,
      hnear, hactive]
  · simp [Page.WAYPOINTS] at hb
    subst hb
    simp [Page.Scene.checkWaypoints, Page.WAYPOINTS, List.enum, List.enumFrom, h0, h1, h3,
      hnear, hactive]
  · simp [Page.WAYPOINTS] at hb
    subst hb
    simp [Page.Scene.checkWaypoints, Page.WAYPOINTS, List.enum, List.enumFrom, h0, h1, h2,
      hnear, hactive]

/-- C16: at most one waypoint is active at a time; with VR off, a poll taken while waypoint
`a` is active and the camera is inside the radius (2) of another waypoint `b` leaves `b`
active and `a` inactive, and a later poll taken while `b` is still active and the camera is
inside the radius of `a` leaves `a` active and `b` inactive. -/
theorem waypoint_activation_exclusive (sqrt : K → K)
    (hsqrt : ∀ x, 0 ≤ x → sqrt x < 2 → x < 4) (s s2 : Page.Scene K) (a b : Nat)
    (wa wb : Page.Waypoint K)
    (ha : (Page.WAYPOINTS : List (Page.Waypoint K))[a]? = some wa)
    (hb : (Page.WAYPOINTS : List (Page.Waypoint K))[b]? = some wb) (hab : a ≠ b)
    (hactive : s.activeWaypoint = some a)
    (hnear : s.position.distanceTo sqrt wb.position < 2)
    (hlater : s2.activeWaypoint = (Page.Scene.checkWaypoints sqrt false s).activeWaypoint)
    (hnear2 : s2.position.distanceTo sqrt wa.position < 2) :
    (∀ (t : Page.Scene K) (i j : Nat), t.isActive i = true → t.isActive j = true → i = j) ∧
    (Page.Scene.checkWaypoints sqrt false s).isActive b = true ∧
    (Page.Scene.checkWaypoints sqrt false s).isActive a = false ∧
    (Page.Scene.checkWaypoints sqrt false s2).isActive a = true ∧
    (Page.Scene.checkWaypoints sqrt false s2).isActive b = false := by
  have hp1 := Page.Scene.checkWaypoints_near sqrt hsqrt s b wb hb
    (by rw [hactive]; intro h; exact hab (Option.some.inj h)) hnear
  rw [hp1] at hlater
  have hp2 := Page.Scene.checkWaypoints_near sqrt hsqrt s2 a wa ha
    (by rw [hlater]; intro h; exact hab (Option.some.inj h).symm) hnear2
  refine ⟨?_, ?_, ?_, ?_, ?_⟩
  · intro t i j hi hj
    simp only [Page.Scene.isActive, decide_eq_true_eq] at hi hj
    rw [hi] at hj
    exact Option.some.inj hj
  · simp [hp1, Page.Scene.isActive]
  · simp [hp1, Page.Scene.isActive, Ne.symm hab]
  · simp [hp2, Page.Scene.isActive]
  · simp [hp2, Page.Scene.isActive, hab]

theorem real_sqrt_lt_two (x : ℝ) (_hx : 0 ≤ x) (h : Real.sqrt x < 2) : x < 4 := by
  by_contra hge
  have h4 : (4 : ℝ) ≤ x := not_lt.mp hge
  have h2 : Real.sqrt 4 = 2 := by
    rw [show (4 : ℝ) = 2 ^ 2 by norm_num]
    exact Real.sqrt_sq (by norm_num)
  have := Real.sqrt_le_sqrt h4
  rw [h2] at this
  exact absurd h (not_lt.mpr this)

/-- Witness for C16: waypoint 0 is active with the camera at waypoint 2, then the camera is at
waypoint 0 again. -/
theorem waypoint_activation_exclusive_witness :
    (Page.Scene.checkWaypoints Real.sqrt false
        ({ position := ⟨0, 8 / 5, 8⟩, worldDirection := ⟨0, 0, -1⟩,
           controller := ⟨false, Vector3.zero, 0⟩, targetPosition := none,
           targetLookAt := none, activeWaypoint := some 0 } : Page.Scene ℝ)).isActive 2 = true ∧
    (Page.Scene.checkWaypoints Real.sqrt false
        ({ position := ⟨5, 8 / 5, 5⟩, worldDirection := ⟨0, 0, -1⟩,
           controller := ⟨false, Vector3.zero, 0⟩, targetPosition := none,
           targetLookAt := none, activeWaypoint := some 2 } : Page.Scene ℝ)).isActive 0 = true := by
  have hs : Page.Scene.checkWaypoints Real.sqrt false
        ({ position := ⟨0, 8 / 5, 8⟩, worldDirection := ⟨0, 0, -1⟩,
           controller := ⟨false, Vector3.zero, 0⟩, targetPosition := none,
           targetLookAt := none, activeWaypoint := some 0 } : Page.Scene ℝ)
      = { position := ⟨0, 8 / 5, 8⟩, worldDirection := ⟨0, 0, -1⟩,
          controller := ⟨false, Vector3.zero, 0⟩, targetPosition := none,
          targetLookAt := some ⟨0, 0, -8⟩, activeWaypoint := some 2 } :=
    Page.Scene.checkWaypoints_near Real.sqrt real_sqrt_lt_two _ 2
      ⟨⟨0, 8 / 5, 8⟩, ⟨0, 0, -8⟩, "Overview"⟩ (by simp [Page.WAYPOINTS]) (by simp)
      (by simp [Vector3.distanceTo, Vector3.distanceToSquared])
  have h := waypoint_activation_exclusive Real.sqrt real_sqrt_lt_two
    ({ position := ⟨0, 8 / 5, 8⟩, worldDirection := ⟨0, 0, -1⟩,
       controller := ⟨false, Vector3.zero, 0⟩, targetPosition := none,
       targetLookAt := none, activeWaypoint := some 0 } : Page.Scene ℝ)
    ({ position := ⟨5, 8 / 5, 5⟩, worldDirection := ⟨0, 0, -1⟩,
       controller := ⟨false, Vector3.zero, 0⟩, targetPosition := none,
       targetLookAt := none, activeWaypoint := some 2 } : Page.Scene ℝ)
    0 2 ⟨⟨5, 8 / 5, 5⟩, ⟨0, 0, 0⟩, "View Center"⟩ ⟨⟨0, 8 / 5, 8⟩, ⟨0, 0, -8⟩, "Overview"⟩
    (by simp [Page.WAYPOINTS]) (by simp [Page.WAYPOINTS]) (by decide) rfl
    (by simp [Vector3.distanceTo, Vector3.distanceToSquared])
    (by rw [hs])
    (by simp [Vector3.distanceTo, Vector3.distanceToSquared])
  exact ⟨h.2.1, h.2.2.2.1⟩

end WaypointTheorems

section GuidedTransit

variable {K : Type} [LinearOrderedField K]

theorem Page.Scene.frames_append_page (sqrt : K → K) (s : Page.Scene K) (is : List (Page.Tick K))
    (i : Page.Tick K) :
    Page.Scene.frames sqrt s (is ++ [i]) = Page.Scene.frame sqrt (Page.Scene.frames sqrt s is) i := by
  simp [Page.Scene.frames, List.foldl_append]

/-- C19, as stated, fails: from (0, 1.6, 10) a transit of length 1 (to (0, 1.6, 9)) and a
transit of length 20 (to (0, 1.6, -10)) are both half-way after a frame of 1/4 s and both
complete on a second frame of 1/4 s: the time needed is 0.5 s for both, not proportional to
the distance. -/
theorem guided_transit_time_ignores_distance :
    Page.Scene.frames Rat.sqrt
        ({ position := ⟨0, 8 / 5, 10⟩, worldDirection := ⟨0, 0, -1⟩,
           controller := ⟨false, Vector3.zero, 0⟩, targetPosition := some ⟨0, 8 / 5, 9⟩,
           targetLookAt := none, activeWaypoint := none } : Page.Scene ℚ)
        [⟨false, none, Movement.initial, 1 / 4⟩]
      = { position := ⟨0, 8 / 5, 19 / 2⟩, worldDirection := ⟨0, 0, -1⟩,
          controller := ⟨true, ⟨0, 8 / 5, 10⟩, 1 / 2⟩, targetPosition := some ⟨0, 8 / 5, 9⟩,
          targetLookAt := none, activeWaypoint := none } ∧
    Page.Scene.frames Rat.sqrt
        ({ position := ⟨0, 8 / 5, 10⟩, worldDirection := ⟨0, 0, -1⟩,
           controller := ⟨false, Vector3.zero, 0⟩, targetPosition := some ⟨0, 8 / 5, 9⟩,
           targetLookAt := none, activeWaypoint := none } : Page.Scene ℚ)
        [⟨false, none, Movement.initial, 1 / 4⟩, ⟨false, none, Movement.initial, 1 / 4⟩]
      = { position := ⟨0, 8 / 5, 9⟩, worldDirection := ⟨0, 0, -1⟩,
          controller := ⟨false, ⟨0, 8 / 5, 10⟩, 1⟩, targetPosition := none,
          targetLookAt := none, activeWaypoint := none } ∧
    Page.Scene.frames Rat.sqrt
        ({ position := ⟨0, 8 / 5, 10⟩, worldDirection := ⟨0, 0, -1⟩,
           controller := ⟨false, Vector3.zero, 0⟩, targetPosition := some ⟨0, 8 / 5, -10⟩,
           targetLookAt := none, activeWaypoint := none } : Page.Scene ℚ)
        [⟨false, none, Movement.initial, 1 / 4⟩]
      = { position := ⟨0, 8 / 5, 0⟩, worldDirection := ⟨0, 0, -1⟩,
          controller := ⟨true, ⟨0, 8 / 5, 10⟩, 1 / 2⟩, targetPosition := some ⟨0, 8 / 5, -10⟩,
          targetLookAt := none, activeWaypoint := none } ∧
    Page.Scene.frames Rat.sqrt
        ({ position := ⟨0, 8 / 5, 10⟩, worldDirection := ⟨0, 0, -1⟩,
           controller := ⟨false, Vector3.zero, 0⟩, targetPosition := some ⟨0, 8 / 5, -10⟩,
           targetLookAt := none, activeWaypoint := none } : Page.Scene ℚ)
        [⟨false, none, Movement.initial, 1 / 4⟩, ⟨false, none, Movement.initial, 1 / 4⟩]
      = { position := ⟨0, 8 / 5, -10⟩, worldDirection := ⟨0, 0, -1⟩,
          controller := ⟨false, ⟨0, 8 / 5, 10⟩, 1⟩, targetPosition := none,
          targetLookAt := none, activeWaypoint := none } := by
  refine ⟨?_, ?_, ?_, ?_⟩ <;>
    norm_num [Page.Scene.frames, Page.Scene.frame, Page.CameraController.useFrame,
      Page.CameraController.worldDirectionAfter, Page.PlayerMovement.useFrame_no_keys_page,
      Vector3.lerpVectors]

/-- One frame of a guided-view transit that has been in flight for `t` seconds. -/
theorem Page.Scene.frame_in_flight_page (sqrt : K → K) (S' T : Vector3 K) (t : K)
    (s : Page.Scene K) (i : Page.Tick K) (hvr : i.isVRMode = false)
    (hkeys : i.movement = Movement.initial) (htarget : s.targetPosition = some T)
    (hstate : (s.controller.isMoving = true ∧ s.controller.startPos = S' ∧
      s.controller.progress = 2 * t) ∨
      (s.controller.isMoving = false ∧ s.position = S' ∧ t = 0)) :
    (t + i.delta < 1 / 2 →
      (Page.Scene.frame sqrt s i).position = Vector3.lerpVectors S' T (2 * (t + i.delta)) ∧
      (Page.Scene.frame sqrt s i).controller = ⟨true, S', 2 * (t + i.delta)⟩ ∧
      (Page.Scene.frame sqrt s i).targetPosition = some T) ∧
    (1 / 2 ≤ t + i.delta →
      (Page.Scene.frame sqrt s i).position = T ∧
      (Page.Scene.frame sqrt s i).controller = ⟨false, S', 1⟩ ∧
      (Page.Scene.frame sqrt s i).targetPosition = none) := by
  have hlerp1 : Vector3.lerpVectors S' T 1 = T := by
    simp [Vector3.lerpVectors]
  have hstart : (if s.controller.isMoving then s.controller.startPos else s.position) = S' := by
    rcases hstate with ⟨h1, h2, _⟩ | ⟨h1, h2, _⟩
    · simp [h1, h2]
    · simp [h1, h2]
  have hprog : (if s.controller.isMoving then s.controller.progress else 0) + i.delta * 2
      = 2 * (t + i.delta) := by
    rcases hstate with ⟨h1, _, h3⟩ | ⟨h1, _, h3⟩
    · simp only [h1, if_true, h3]; ring
    · simp only [h1, Bool.false_eq_true, if_false, h3]; ring
  constructor
  · intro hlt
    have hlt1 : 2 * (t + i.delta) < 1 := by linarith
    have hmin : min (2 * (t + i.delta)) 1 = 2 * (t + i.delta) := min_eq_left hlt1.le
    have hn : ¬ (1 : K) ≤ 2 * (t + i.delta) := not_le.mpr hlt1
    simp only [Page.Scene.frame, Page.CameraController.useFrame, htarget, hvr, hkeys,
      Page.PlayerMovement.useFrame_no_keys_page, Bool.false_eq_true, if_false, hstart, hprog,
      hmin, hn]
    simp
  · intro hge
    have hge1 : (1 : K) ≤ 2 * (t + i.delta) := by linarith
    have hmin : min (2 * (t + i.delta)) 1 = 1 := min_eq_right hge1
    simp only [Page.Scene.frame, Page.CameraController.useFrame, htarget, hvr, hkeys,
      Page.PlayerMovement.useFrame_no_keys_page, Bool.false_eq_true, if_false, hstart, hprog,
      hmin, le_refl, if_true, hlerp1]
    simp

theorem Page.Scene.frames_in_flight_page (sqrt : K → K) (S T dir : Vector3 K)
    (c0 : Page.CameraController K) (hidle : c0.isMoving = false)
    (look : Option (Vector3 K)) (active : Option Nat)
    (is : List (Page.Tick K)) (i : Page.Tick K)
    (hin : ∀ j ∈ is ++ [i], 0 < j.delta ∧ j.movement = Movement.initial ∧ j.isVRMode = false)
    (hlt : (is.map Page.Tick.delta).sum + i.delta < 1 / 2) :
    (Page.Scene.frames sqrt ⟨S, dir, c0, some T, look, active⟩ (is ++ [i])).position
      = Vector3.lerpVectors S T (2 * ((is.map Page.Tick.delta).sum + i.delta)) ∧
    (Page.Scene.frames sqrt ⟨S, dir, c0, some T, look, active⟩ (is ++ [i])).controller
      = ⟨true, S, 2 * ((is.map Page.Tick.delta).sum + i.delta)⟩ ∧
    (Page.Scene.frames sqrt ⟨S, dir, c0, some T, look, active⟩ (is ++ [i])).targetPosition
      = some T := by
  induction is using List.reverseRecOn generalizing i with
  | nil =>
    obtain ⟨_, hk, hv⟩ := hin i (by simp)
    simp only [List.nil_append, Page.Scene.frames, List.foldl_cons, List.foldl_nil,
      List.map_nil, List.sum_nil] at hlt ⊢
    exact (Page.Scene.frame_in_flight_page sqrt S T 0 _ i hv hk rfl
      (Or.inr ⟨hidle, rfl, rfl⟩)).1 hlt
  | append_singleton is k ih =>
    obtain ⟨hipos, hk, hv⟩ := hin i (by simp)
    have hin2 : ∀ j ∈ is ++ [k],
        0 < j.delta ∧ j.movement = Movement.initial ∧ j.isVRMode = false :=
      fun j hj => hin j (List.mem_append_left _ hj)
    simp only [List.map_append, List.map_cons, List.map_nil, List.sum_append, List.sum_cons,
      List.sum_nil, add_zero] at hlt ⊢
    have hlt2 : (is.map Page.Tick.delta).sum + k.delta < 1 / 2 := by linarith
    obtain ⟨_, h2, h3⟩ := ih k hin2 hlt2
    rw [Page.Scene.frames_append_page]
    exact (Page.Scene.frame_in_flight_page sqrt S T _ _ i hv hk h3
      (Or.inl ⟨by rw [h2], by rw [h2], by rw [h2]⟩)).1 hlt

/-- C19, amended: in the guided-view variant the progress of a transit advances by 2 * delta
per frame, whatever the distance.  From an idle animator at `S` with a request for `T`, VR
off, over frames with positive deltas and no movement key held: a frame whose cumulative
elapsed time `t` is below 0.5 s leaves the camera at `S + (T - S) * 2 * t` with the request
pending, and the first frame whose cumulative elapsed time reaches 0.5 s puts the camera at
`T`, ends the transit and clears the request.  The duration is 0.5 s for every start and
target; the speed, not the time, is proportional to the distance. -/
theorem guided_transit_fixed_duration (sqrt : K → K) (S T dir : Vector3 K)
    (c0 : Page.CameraController K) (hidle : c0.isMoving = false)
    (look : Option (Vector3 K)) (active : Option Nat)
    (is : List (Page.Tick K)) (i : Page.Tick K)
    (hin : ∀ j ∈ is ++ [i],
      0 < j.delta ∧ j.movement = Movement.initial ∧ j.isVRMode = false) :
    ((is.map Page.Tick.delta).sum + i.delta < 1 / 2 →
      (Page.Scene.frames sqrt ⟨S, dir, c0, some T, look, active⟩ (is ++ [i])).position
        = Vector3.lerpVectors S T (2 * ((is.map Page.Tick.delta).sum + i.delta)) ∧
      (Page.Scene.frames sqrt ⟨S, dir, c0, some T, look, active⟩ (is ++ [i])).controller
        = ⟨true, S, 2 * ((is.map Page.Tick.delta).sum + i.delta)⟩ ∧
      (Page.Scene.frames sqrt ⟨S, dir, c0, some T, look, active⟩ (is ++ [i])).targetPosition
        = some T) ∧
    ((is.map Page.Tick.delta).sum < 1 / 2 →
      1 / 2 ≤ (is.map Page.Tick.delta).sum + i.delta →
      (Page.Scene.frames sqrt ⟨S, dir, c0, some T, look, active⟩ (is ++ [i])).position = T ∧
      (Page.Scene.frames sqrt ⟨S, dir, c0, some T, look, active⟩ (is ++ [i])).controller
        = ⟨false, S, 1⟩ ∧
      (Page.Scene.frames sqrt ⟨S, dir, c0, some T, look, active⟩ (is ++ [i])).targetPosition
        = none) := by
  obtain ⟨_, hk, hv⟩ := hin i (by simp)
  constructor
  · exact Page.Scene.frames_in_flight_page sqrt S T dir c0 hidle look active is i hin
  · intro hlt hge
    rw [Page.Scene.frames_append_page]
    cases is using List.reverseRecOn with
    | nil =>
      simp only [Page.Scene.frames, List.foldl_nil, List.map_nil, List.sum_nil] at hge ⊢
      exact (Page.Scene.frame_in_flight_page sqrt S T 0 _ i hv hk rfl
        (Or.inr ⟨hidle, rfl, rfl⟩)).2 hge
    | append_singleton is k =>
      have hin2 : ∀ j ∈ is ++ [k],
          0 < j.delta ∧ j.movement = Movement.initial ∧ j.isVRMode = false :=
        fun j hj => hin j (List.mem_append_left _ hj)
      simp only [List.map_append, List.map_cons, List.map_nil, List.sum_append, List.sum_cons,
        List.sum_nil, add_zero] at hlt hge
      obtain ⟨_, h2, h3⟩ := Page.Scene.frames_in_flight_page sqrt S T dir c0 hidle look active
        is k hin2 hlt
      exact (Page.Scene.frame_in_flight_page sqrt S T _ _ i hv hk h3
        (Or.inl ⟨by rw [h2], by rw [h2], by rw [h2]⟩)).2 hge

/-- Witness for C19, amended: the long transit of the counterexample, 20 units in two frames
of 1/4 s. -/
theorem guided_transit_fixed_duration_witness :
    (Page.Scene.frames Rat.sqrt
        ({ position := ⟨0, 8 / 5, 10⟩, worldDirection := ⟨0, 0, -1⟩,
           controller := ⟨false, Vector3.zero, 0⟩, targetPosition := some ⟨0, 8 / 5, -10⟩,
           targetLookAt := none, activeWaypoint := none } : Page.Scene ℚ)
        ([⟨false, none, Movement.initial, 1 / 4⟩] ++
          [⟨false, none, Movement.initial, 1 / 4⟩])).position = ⟨0, 8 / 5, -10⟩ :=
  ((guided_transit_fixed_duration Rat.sqrt (⟨0, 8 / 5, 10⟩ : Vector3 ℚ) ⟨0, 8 / 5, -10⟩
    ⟨0, 0, -1⟩ ⟨false, Vector3.zero, 0⟩ rfl none none
    [⟨false, none, Movement.initial, 1 / 4⟩] ⟨false, none, Movement.initial, 1 / 4⟩
    (by
      intro j hj
      simp at hj
      subst hj
      exact ⟨by norm_num, rfl, rfl⟩)).2 (by norm_num) (by norm_num)).1

end GuidedTransit

/-! ## Save and load -/

section SaveLoad

variable {K : Type} [LinearOrderedField K]

/-- C17: evaluation of the code where it departs from the claim.  A model whose fit left the
scale at (1, 1, 1) (bounding box (-1, 0, -1) .. (1, 4, 1)) is moved to (3, 0.05, 0) and
turned by 0.5 about Y in the editor, and saved: the snapshot holds exactly that transform.
Loading the snapshot does not restore it: the model is placed at (0, 0.05, 0) with rotation
(0, 0, 0), because the loader takes the saved scale (1, 1, 1) for `defaultTransform`. -/
theorem saved_unit_scale_is_refitted :
    VRScene.handleTriggerSave
        (some (⟨⟨3, 1 / 20, 0⟩, ⟨0, 1 / 2, 0⟩, ⟨1, 1, 1⟩⟩ : Transform ℚ)) true
        ⟨0, 8 / 5, 0⟩ ⟨0, 0, 0⟩ "jpeg"
      = some ⟨⟨⟨3, 1 / 20, 0⟩, ⟨0, 1 / 2, 0⟩, ⟨1, 1, 1⟩⟩, ⟨⟨0, 8 / 5, 0⟩, ⟨0, 0, 0⟩⟩, "jpeg"⟩ ∧
    VRScene.loadModel (⟨⟨-1, 0, -1⟩, ⟨1, 4, 1⟩⟩ : Box3 ℚ)
        (some (App.handleSaveRoom
          ⟨⟨⟨3, 1 / 20, 0⟩, ⟨0, 1 / 2, 0⟩, ⟨1, 1, 1⟩⟩, ⟨⟨0, 8 / 5, 0⟩, ⟨0, 0, 0⟩⟩, "jpeg"⟩))
      = ⟨⟨0, 1 / 20, 0⟩, ⟨0, 0, 0⟩, ⟨1, 1, 1⟩⟩ := by
  constructor
  · rfl
  · norm_num [VRScene.loadModel, VRScene.initialTransform, App.handleSaveRoom,
      VRScene.UploadedModel.place, Box3.getSize, Box3.getCenter, Box3.isEmpty, Vector3.sub,
      Vector3.add, Vector3.multiplyScalar]

/-- Where the round trip through save and load works and where it does not: the snapshot
holds the model's transform; with a saved scale other than (1, 1, 1) loading restores that
transform exactly (the `else` branch of the placement effect); with a saved scale of
(1, 1, 1) loading gives what a scene without saved data gives. -/
theorem save_load_restores_unless_unit_scale (model : Transform K) (cameraPosition cameraRotation : Vector3 K)
    (screenshot : String) (box : Box3 K) :
    (∃ data, VRScene.handleTriggerSave (some model) true cameraPosition cameraRotation screenshot
        = some data ∧
      data.modelTransform = model ∧
      (¬ (model.scale.x = 1 ∧ model.scale.y = 1 ∧ model.scale.z = 1) →
        VRScene.loadModel box (some (App.handleSaveRoom data)) = model) ∧
      (model.scale.x = 1 ∧ model.scale.y = 1 ∧ model.scale.z = 1 →
        VRScene.loadModel box (some (App.handleSaveRoom data))
          = VRScene.loadModel box none)) := by
  refine ⟨⟨model, ⟨cameraPosition, cameraRotation⟩, screenshot⟩, rfl, rfl, ?_, ?_⟩
  · intro h
    simp only [VRScene.loadModel, VRScene.initialTransform, App.handleSaveRoom,
      VRScene.UploadedModel.place, h, if_false]
  · intro h
    simp only [VRScene.loadModel, VRScene.initialTransform, App.handleSaveRoom,
      VRScene.UploadedModel.place, VRScene.defaultTransform, h, and_self, if_true]

end SaveLoad

/-! ## Cancelling intents and degenerate gaze -/

section CancelTheorems

variable {K : Type} [LinearOrderedField K]

theorem Vector3.normalize_zero (sqrt : K → K) :
    Vector3.normalize sqrt (Vector3.zero : Vector3 K) = Vector3.zero := by
  simp [Vector3.normalize, Vector3.divideScalar, Vector3.multiplyScalar, Vector3.zero]

theorem Vector3.length_zero (sqrt : K → K) (h0 : sqrt 0 = 0) :
    Vector3.length sqrt (Vector3.zero : Vector3 K) = 0 := by
  simp [Vector3.length, Vector3.lengthSq, Vector3.zero, h0]

theorem moveDirection_cancel (sqrt : K → K) (movement : Movement) (dir : Vector3 K)
    (hfb : movement.forward = movement.backward) (hlr : movement.left = movement.right) :
    moveDirection sqrt movement dir = Vector3.zero := by
  obtain ⟨f, b, l, r⟩ := movement
  simp only at hfb hlr
  subst hfb hlr
  cases f <;> cases l <;>
    simp [moveDirection, Vector3.add, Vector3.sub, Vector3.zero]

/-- C21: with the pointer Locked and VR off, for every camera orientation, collidable and
frame delta, when "forward" and "backward" are both held or both released and "left" and
"right" are both held or both released, the accumulated direction is the zero vector, its
length is 0, the test `moveDirection.length() > 0` fails - so the branch holding the Collision
Probe is not entered - and the camera position is unchanged. -/
theorem opposing_intents_cancel (sqrt : K → K) (h0 : sqrt 0 = 0) (movement : Movement)
    (hfb : movement.forward = movement.backward) (hlr : movement.left = movement.right)
    (collidable : Option (Collidable K)) (dir : Vector3 K) (delta : K) (p : Vector3 K) :
    moveDirection sqrt movement dir = Vector3.zero ∧
    (moveDirection sqrt movement dir).length sqrt = 0 ∧
    ¬ 0 < (moveDirection sqrt movement dir).length sqrt ∧
    VRScene.PlayerMovement.useFrame sqrt false true movement collidable dir delta p = p := by
  have hm := moveDirection_cancel sqrt movement dir hfb hlr
  have hl : (moveDirection sqrt movement dir).length sqrt = 0 := by
    rw [hm]; exact Vector3.length_zero sqrt h0
  refine ⟨hm, hl, by rw [hl]; exact lt_irrefl 0, ?_⟩
  unfold VRScene.PlayerMovement.useFrame
  simp [hl]

/-- Witness for C21: all four keys held, camera looking along -Z, a wall 0.5 ahead. -/
theorem opposing_intents_cancel_witness :
    VRScene.PlayerMovement.useFrame Rat.sqrt false true ⟨true, true, true, true⟩
        (some (fun _ _ => [1 / 2])) ⟨0, 0, -1⟩ (1 / 60) (⟨0, 8 / 5, 0⟩ : Vector3 ℚ)
      = ⟨0, 8 / 5, 0⟩ :=
  (opposing_intents_cancel Rat.sqrt (by simp) ⟨true, true, true, true⟩ rfl rfl
    (some (fun _ _ => [1 / 2])) ⟨0, 0, -1⟩ (1 / 60) ⟨0, 8 / 5, 0⟩).2.2.2

theorem horizontalForward_vertical (sqrt : K → K) (dir : Vector3 K) (hx : dir.x = 0)
    (hz : dir.z = 0) : horizontalForward sqrt dir = Vector3.zero := by
  unfold horizontalForward
  rw [hx, hz]
  exact Vector3.normalize_zero sqrt

theorem rightVector_zero (sqrt : K → K) :
    rightVector sqrt (Vector3.zero : Vector3 K) = Vector3.zero := by
  have : Vector3.crossVectors (⟨0, 1, 0⟩ : Vector3 K) Vector3.zero = Vector3.zero := by
    simp [Vector3.crossVectors, Vector3.zero]
  unfold rightVector
  rw [this]
  exact Vector3.normalize_zero sqrt

theorem moveDirection_vertical (sqrt : K → K) (movement : Movement) (dir : Vector3 K)
    (hx : dir.x = 0) (hz : dir.z = 0) : moveDirection sqrt movement dir = Vector3.zero := by
  unfold moveDirection
  simp only [horizontalForward_vertical sqrt dir hx hz, rightVector_zero]
  obtain ⟨f, b, l, r⟩ := movement
  cases f <;> cases b <;> cases l <;> cases r <;>
    simp [Vector3.add, Vector3.sub, Vector3.zero]

/-- C23: when the camera's world forward has zero X and Z, each `normalize()` divides by 1 (the
`length() || 1` guard), never by 0; the renormalised forward vector and the right vector are
the zero vector, so is the accumulated direction for every held key, and for every frame
delta the Locomotion Controller leaves the camera position unchanged, in both viewers. -/
theorem degenerate_gaze_no_movement (sqrt : K → K) (h0 : sqrt 0 = 0) (dir : Vector3 K)
    (hx : dir.x = 0) (hz : dir.z = 0) (movement : Movement) (isVRMode isLocked : Bool)
    (controlsIsLocked : Option Bool) (collidable : Option (Collidable K)) (delta : K)
    (p : Vector3 K) :
    (if Vector3.length sqrt (⟨dir.x, 0, dir.z⟩ : Vector3 K) = 0 then 1
      else Vector3.length sqrt (⟨dir.x, 0, dir.z⟩ : Vector3 K)) = 1 ∧
    horizontalForward sqrt dir = Vector3.zero ∧
    (if Vector3.length sqrt (Vector3.crossVectors ⟨0, 1, 0⟩ (horizontalForward sqrt dir)) = 0
      then 1
      else Vector3.length sqrt (Vector3.crossVectors ⟨0, 1, 0⟩ (horizontalForward sqrt dir)))
      = 1 ∧
    rightVector sqrt (horizontalForward sqrt dir) = Vector3.zero ∧
    moveDirection sqrt movement dir = Vector3.zero ∧
    ¬ 0 < (moveDirection sqrt movement dir).length sqrt ∧
    VRScene.PlayerMovement.useFrame sqrt isVRMode isLocked movement collidable dir delta p
      = p ∧
    Page.PlayerMovement.useFrame sqrt isVRMode controlsIsLocked movement dir delta p = p := by
  have hf := horizontalForward_vertical sqrt dir hx hz
  have hm := moveDirection_vertical sqrt movement dir hx hz
  have hl : (moveDirection sqrt movement dir).length sqrt = 0 := by
    rw [hm]; exact Vector3.length_zero sqrt h0
  refine ⟨?_, hf, ?_, ?_, hm, by rw [hl]; exact lt_irrefl 0, ?_, ?_⟩
  · simp [Vector3.length, Vector3.lengthSq, hx, hz, h0]
  · rw [hf]
    simp [Vector3.length, Vector3.lengthSq, Vector3.crossVectors, Vector3.zero, h0]
  · rw [hf]; exact rightVector_zero sqrt
  · unfold VRScene.PlayerMovement.useFrame
    simp [hl]
  · unfold Page.PlayerMovement.useFrame
    simp [hl]

/-- Witness for C23: camera looking straight down, "forward" and "right" held, Locked. -/
theorem degenerate_gaze_no_movement_witness :
    VRScene.PlayerMovement.useFrame Rat.sqrt false true ⟨true, false, false, true⟩ none
        ⟨0, -1, 0⟩ (1 / 60) (⟨0, 8 / 5, 0⟩ : Vector3 ℚ) = ⟨0, 8 / 5, 0⟩ ∧
    Page.PlayerMovement.useFrame Rat.sqrt false (some true) ⟨true, false, false, true⟩
        ⟨0, -1, 0⟩ (1 / 60) (⟨0, 8 / 5, 0⟩ : Vector3 ℚ) = ⟨0, 8 / 5, 0⟩ :=
  have h := degenerate_gaze_no_movement Rat.sqrt (by simp) (⟨0, -1, 0⟩ : Vector3 ℚ) rfl rfl
    ⟨true, false, false, true⟩ false true (some true) none (1 / 60) ⟨0, 8 / 5, 0⟩
  ⟨h.2.2.2.2.2.2.1, h.2.2.2.2.2.2.2⟩

end CancelTheorems

/-! ## Locomotion step: horizontal, speed 5 -/

section StepTheorems

variable {K : Type} [LinearOrderedField K]

theorem sqrt_pos_of_isSqrt (sqrt : K → K)
    (hsqrt : ∀ x, 0 ≤ x → 0 ≤ sqrt x ∧ sqrt x * sqrt x = x) (x : K) (hx : 0 < x) :
    0 < sqrt x := by
  obtain ⟨h1, h2⟩ := hsqrt x hx.le
  rcases h1.lt_or_eq with h | h
  · exact h
  · rw [← h] at h2
    simp at h2
    exact absurd h2.symm (ne_of_gt hx)

theorem sqrt_mul_self_of_isSqrt (sqrt : K → K)
    (hsqrt : ∀ x, 0 ≤ x → 0 ≤ sqrt x ∧ sqrt x * sqrt x = x) (a : K) (ha : 0 ≤ a) :
    sqrt (a * a) = a := by
  obtain ⟨h1, h2⟩ := hsqrt (a * a) (mul_self_nonneg a)
  exact (mul_self_inj h1 ha).mp h2

theorem sqrt_one_of_isSqrt (sqrt : K → K)
    (hsqrt : ∀ x, 0 ≤ x → 0 ≤ sqrt x ∧ sqrt x * sqrt x = x) : sqrt 1 = 1 := by
  have h := sqrt_mul_self_of_isSqrt sqrt hsqrt 1 zero_le_one
  simpa using h

theorem Vector3.normalize_of_pos (sqrt : K → K)
    (hsqrt : ∀ x, 0 ≤ x → 0 ≤ sqrt x ∧ sqrt x * sqrt x = x) (m : Vector3 K)
    (hm : 0 < m.lengthSq) :
    0 < m.length sqrt ∧
    m.normalize sqrt = ⟨m.x * (1 / m.length sqrt), m.y * (1 / m.length sqrt),
      m.z * (1 / m.length sqrt)⟩ ∧
    (m.normalize sqrt).lengthSq = 1 := by
  have hl : 0 < m.length sqrt := sqrt_pos_of_isSqrt sqrt hsqrt _ hm
  have hsq : m.length sqrt * m.length sqrt = m.lengthSq := (hsqrt _ hm.le).2
  have hn : m.normalize sqrt = ⟨m.x * (1 / m.length sqrt), m.y * (1 / m.length sqrt),
      m.z * (1 / m.length sqrt)⟩ := by
    simp [Vector3.normalize, Vector3.divideScalar, Vector3.multiplyScalar, ne_of_gt hl]
  refine ⟨hl, hn, ?_⟩
  rw [hn]
  have hne : m.length sqrt ≠ 0 := ne_of_gt hl
  unfold Vector3.lengthSq at hsq ⊢
  simp only
  field_simp
  nlinarith [hsq]

theorem horizontalForward_unit (sqrt : K → K)
    (hsqrt : ∀ x, 0 ≤ x → 0 ≤ sqrt x ∧ sqrt x * sqrt x = x) (dir : Vector3 K)
    (hdir : dir.x ≠ 0 ∨ dir.z ≠ 0) :
    (horizontalForward sqrt dir).y = 0 ∧
    (horizontalForward sqrt dir).x * (horizontalForward sqrt dir).x
      + (horizontalForward sqrt dir).z * (horizontalForward sqrt dir).z = 1 := by
  have hpos : 0 < (⟨dir.x, 0, dir.z⟩ : Vector3 K).lengthSq := by
    unfold Vector3.lengthSq
    simp only
    rcases hdir with h | h
    · nlinarith [mul_self_pos.mpr h, mul_self_nonneg dir.z]
    · nlinarith [mul_self_pos.mpr h, mul_self_nonneg dir.x]
  obtain ⟨_, hn, hu⟩ := Vector3.normalize_of_pos sqrt hsqrt ⟨dir.x, 0, dir.z⟩ hpos
  have hy : (horizontalForward sqrt dir).y = 0 := by
    unfold horizontalForward
    rw [hn]
    simp
  refine ⟨hy, ?_⟩
  unfold horizontalForward at hy ⊢
  unfold Vector3.lengthSq at hu
  rw [hy] at hu
  simpa using hu

theorem rightVector_of_unit (sqrt : K → K)
    (hsqrt : ∀ x, 0 ≤ x → 0 ≤ sqrt x ∧ sqrt x * sqrt x = x) (f : Vector3 K)
    (hu : f.x * f.x + f.z * f.z = 1) :
    rightVector sqrt f = ⟨f.z, 0, -f.x⟩ := by
  have hc : Vector3.crossVectors (⟨0, 1, 0⟩ : Vector3 K) f = ⟨f.z, 0, -f.x⟩ := by
    simp [Vector3.crossVectors]
  have hl : (⟨f.z, 0, -f.x⟩ : Vector3 K).lengthSq = 1 := by
    unfold Vector3.lengthSq
    simp only
    linarith
  unfold rightVector
  rw [hc]
  simp [Vector3.normalize, Vector3.length, hl, sqrt_one_of_isSqrt sqrt hsqrt,
    Vector3.divideScalar, Vector3.multiplyScalar]

theorem moveDirection_not_cancel (sqrt : K → K)
    (hsqrt : ∀ x, 0 ≤ x → 0 ≤ sqrt x ∧ sqrt x * sqrt x = x) (dir : Vector3 K)
    (hdir : dir.x ≠ 0 ∨ dir.z ≠ 0) (movement : Movement)
    (hkeys : ¬ (movement.forward = movement.backward ∧ movement.left = movement.right)) :
    (moveDirection sqrt movement dir).y = 0 ∧ 0 < (moveDirection sqrt movement dir).lengthSq := by
  obtain ⟨hy, hu⟩ := horizontalForward_unit sqrt hsqrt dir hdir
  have hr := rightVector_of_unit sqrt hsqrt _ hu
  unfold moveDirection
  simp only [hr]
  generalize horizontalForward sqrt dir = f at hy hu
  obtain ⟨fx, fy, fz⟩ := f
  simp only at hy hu
  subst hy
  obtain ⟨a, b, l, r⟩ := movement
  cases a <;> cases b <;> cases l <;> cases r <;>
    simp at hkeys <;>
    (simp only [Bool.false_eq_true, if_false, if_true, Vector3.add, Vector3.sub,
      Vector3.zero, Vector3.lengthSq]
     constructor
     · ring
     · nlinarith [hu])

theorem Vector3.displacement_of_unit (sqrt : K → K)
    (hsqrt : ∀ x, 0 ≤ x → 0 ≤ sqrt x ∧ sqrt x * sqrt x = x) (p n : Vector3 K) (delta : K)
    (hdelta : 0 ≤ delta) (hy : n.y = 0) (hu : n.lengthSq = 1) :
    ((p.addScaledVector n (5 * delta)).sub p).y = 0 ∧
    ((p.addScaledVector n (5 * delta)).sub p).length sqrt = 5 * delta ∧
    (p.addScaledVector n (5 * delta)).y = p.y := by
  have hd : (p.addScaledVector n (5 * delta)).sub p
      = ⟨n.x * (5 * delta), n.y * (5 * delta), n.z * (5 * delta)⟩ := by
    simp [Vector3.addScaledVector, Vector3.sub]
  refine ⟨?_, ?_, ?_⟩
  · rw [hd]; simp [hy]
  · rw [hd]
    have hl : (⟨n.x * (5 * delta), n.y * (5 * delta), n.z * (5 * delta)⟩ : Vector3 K).lengthSq
        = (5 * delta) * (5 * delta) := by
      unfold Vector3.lengthSq at hu ⊢
      simp only
      have : n.x * (5 * delta) * (n.x * (5 * delta)) + n.y * (5 * delta) * (n.y * (5 * delta))
          + n.z * (5 * delta) * (n.z * (5 * delta))
          = (n.x * n.x + n.y * n.y + n.z * n.z) * ((5 * delta) * (5 * delta)) := by ring
      rw [this, hu, one_mul]
    unfold Vector3.length
    rw [hl]
    exact sqrt_mul_self_of_isSqrt sqrt hsqrt _ (by linarith)
  · simp [Vector3.addScaledVector, hy]

/-- C22: with the pointer Locked, VR off, the probe not blocking, a camera whose world forward
has a non-zero horizontal component, keys that do not cancel and a frame delta that is not
negative, the displacement of the frame has zero Y component and length exactly 5 * delta, so
the eye height is kept and a diagonal step is as long as a straight one - in the free-roam
viewer and in the guided-view variant.  `sqrt` is a square root: non-negative, with
`sqrt x * sqrt x = x` for `x ≥ 0`. -/
theorem locomotion_step_horizontal_fixed_speed (sqrt : K → K)
    (hsqrt : ∀ x, 0 ≤ x → 0 ≤ sqrt x ∧ sqrt x * sqrt x = x) (dir : Vector3 K)
    (hdir : dir.x ≠ 0 ∨ dir.z ≠ 0) (movement : Movement)
    (hkeys : ¬ (movement.forward = movement.backward ∧ movement.left = movement.right))
    (collidable : Option (Collidable K)) (delta : K) (hdelta : 0 ≤ delta) (p : Vector3 K)
    (hfree : canMove collidable p (probeDirection sqrt movement dir) = true) :
    ((VRScene.PlayerMovement.useFrame sqrt false true movement collidable dir delta p).sub p).y
      = 0 ∧
    ((VRScene.PlayerMovement.useFrame sqrt false true movement collidable dir delta p).sub
      p).length sqrt = 5 * delta ∧
    (VRScene.PlayerMovement.useFrame sqrt false true movement collidable dir delta p).y = p.y ∧
    ((Page.PlayerMovement.useFrame sqrt false (some true) movement dir delta p).sub p).y = 0 ∧
    ((Page.PlayerMovement.useFrame sqrt false (some true) movement dir delta p).sub
      p).length sqrt = 5 * delta ∧
    (Page.PlayerMovement.useFrame sqrt false (some true) movement dir delta p).y = p.y := by
  obtain ⟨hmy, hmpos⟩ := moveDirection_not_cancel sqrt hsqrt dir hdir movement hkeys
  obtain ⟨hlen, hn, hu⟩ := Vector3.normalize_of_pos sqrt hsqrt _ hmpos
  have hny : ((moveDirection sqrt movement dir).normalize sqrt).y = 0 := by
    rw [hn]; simp [hmy]
  obtain ⟨d1, d2, d3⟩ := Vector3.displacement_of_unit sqrt hsqrt p _ delta hdelta hny hu
  have hv : VRScene.PlayerMovement.useFrame sqrt false true movement collidable dir delta p
      = p.addScaledVector ((moveDirection sqrt movement dir).normalize sqrt) (5 * delta) := by
    unfold probeDirection at hfree
    unfold VRScene.PlayerMovement.useFrame
    simp [hlen, hfree, playerSpeed]
  have hp : Page.PlayerMovement.useFrame sqrt false (some true) movement dir delta p
      = p.addScaledVector ((moveDirection sqrt movement dir).normalize sqrt) (5 * delta) := by
    unfold Page.PlayerMovement.useFrame
    simp [hlen, playerSpeed]
  rw [hv, hp]
  exact ⟨d1, d2, d3, d1, d2, d3⟩

/-- Witness for C22: camera looking along -Z, "forward" and "right" held, delta 1/60: the
diagonal step has length 5/60. -/
theorem locomotion_step_horizontal_fixed_speed_witness :
    ((VRScene.PlayerMovement.useFrame Real.sqrt false true ⟨true, false, false, true⟩ none
        ⟨0, 0, -1⟩ (1 / 60) (⟨0, 8 / 5, 0⟩ : Vector3 ℝ)).sub ⟨0, 8 / 5, 0⟩).length Real.sqrt
      = 5 * (1 / 60) :=
  (locomotion_step_horizontal_fixed_speed Real.sqrt
    (fun x hx => ⟨Real.sqrt_nonneg x, Real.mul_self_sqrt hx⟩) (⟨0, 0, -1⟩ : Vector3 ℝ)
    (Or.inr (by norm_num)) ⟨true, false, false, true⟩ (by simp) none (1 / 60) (by norm_num)
    ⟨0, 8 / 5, 0⟩ rfl).2.1

end StepTheorems

/-! ## The waypoint table -/

section TableTheorems

variable {K : Type} [LinearOrderedField K]

theorem sqrt_lt_two_of_isSqrt (sqrt : K → K)
    (hsqrt : ∀ x, 0 ≤ x → 0 ≤ sqrt x ∧ sqrt x * sqrt x = x) (x : K) (hx : 0 ≤ x)
    (h : sqrt x < 2) : x < 4 := by
  obtain ⟨h1, h2⟩ := hsqrt x hx
  nlinarith

theorem four_lt_sqrt_of_isSqrt (sqrt : K → K)
    (hsqrt : ∀ x, 0 ≤ x → 0 ≤ sqrt x ∧ sqrt x * sqrt x = x) (x : K) (h : 16 < x) :
    4 < sqrt x := by
  obtain ⟨h1, h2⟩ := hsqrt x (by linarith)
  by_contra hle
  have h4 : sqrt x ≤ 4 := not_lt.mp hle
  nlinarith

theorem Page.WAYPOINTS_index_lt (i : Nat) (w : Page.Waypoint K)
    (h : (Page.WAYPOINTS : List (Page.Waypoint K))[i]? = some w) : i < 4 := by
  by_contra hn
  have : (Page.WAYPOINTS : List (Page.Waypoint K)).length ≤ i := by
    simp [Page.WAYPOINTS]; omega
  rw [List.getElem?_eq_none this] at h
  cases h

theorem Page.WAYPOINTS_apart (i j : Nat) (wi wj : Page.Waypoint K)
    (hi : (Page.WAYPOINTS : List (Page.Waypoint K))[i]? = some wi)
    (hj : (Page.WAYPOINTS : List (Page.Waypoint K))[j]? = some wj) (hij : i ≠ j) :
    16 < wi.position.distanceToSquared wj.position := by
  have hi4 := Page.WAYPOINTS_index_lt i wi hi
  have hj4 := Page.WAYPOINTS_index_lt j wj hj
  interval_cases i <;> interval_cases j <;>
    first
    | exact absurd rfl hij
    | (simp [Page.WAYPOINTS] at hi hj
       subst hi hj
       norm_num [Vector3.distanceToSquared])

theorem Page.Scene.foldl_poll_none (sqrt : K → K) (s : Page.Scene K)
    (entries : List (Nat × Page.Waypoint K))
    (hnone : ∀ e ∈ entries,
      ¬ (s.position.distanceTo sqrt e.2.position < 2 ∧ s.activeWaypoint ≠ some e.1))
    (acc : Page.Scene K) :
    entries.foldl (fun acc iw =>
      if s.position.distanceTo sqrt iw.2.position < 2 ∧ s.activeWaypoint ≠ some iw.1 then
        { acc with targetLookAt := some iw.2.target, activeWaypoint := some iw.1 }
      else acc) acc = acc := by
  induction entries generalizing acc with
  | nil => rfl
  | cons e es ih =>
    rw [List.foldl_cons, if_neg (hnone e (List.mem_cons_self _ _))]
    exact ih (fun k hk => hnone k (List.mem_cons_of_mem _ hk)) acc

theorem Page.Scene.foldl_poll_unique (sqrt : K → K) (s : Page.Scene K)
    (e0 : Nat × Page.Waypoint K) (entries : List (Nat × Page.Waypoint K))
    (huniq : ∀ e ∈ entries,
      (s.position.distanceTo sqrt e.2.position < 2 ∧ s.activeWaypoint ≠ some e.1) → e = e0)
    (hsome : ∃ e ∈ entries,
      s.position.distanceTo sqrt e.2.position < 2 ∧ s.activeWaypoint ≠ some e.1)
    (acc : Page.Scene K) :
    entries.foldl (fun acc iw =>
      if s.position.distanceTo sqrt iw.2.position < 2 ∧ s.activeWaypoint ≠ some iw.1 then
        { acc with targetLookAt := some iw.2.target, activeWaypoint := some iw.1 }
      else acc) acc
      = { acc with targetLookAt := some e0.2.target, activeWaypoint := some e0.1 } := by
  induction entries generalizing acc with
  | nil =>
    obtain ⟨e, he, _⟩ := hsome
    cases he
  | cons e es ih =>
    have huniq2 : ∀ k ∈ es,
        (s.position.distanceTo sqrt k.2.position < 2 ∧ s.activeWaypoint ≠ some k.1) → k = e0 :=
      fun k hk => huniq k (List.mem_cons_of_mem _ hk)
    rw [List.foldl_cons]
    by_cases hrest : ∃ k ∈ es,
        s.position.distanceTo sqrt k.2.position < 2 ∧ s.activeWaypoint ≠ some k.1
    · rw [ih huniq2 hrest]
      split_ifs <;> rfl
    · have hnone : ∀ k ∈ es,
          ¬ (s.position.distanceTo sqrt k.2.position < 2 ∧ s.activeWaypoint ≠ some k.1) :=
        fun k hk hc => hrest ⟨k, hk, hc⟩
      rw [Page.Scene.foldl_poll_none sqrt s es hnone]
      obtain ⟨k, hk, hc⟩ := hsome
      rcases List.mem_cons.mp hk with hke | hke
      · subst hke
        rw [if_pos hc, huniq k (List.mem_cons_self _ _) hc]
      · exact absurd hc (hnone k hke)

/-- C24: every two distinct entries of `WAYPOINTS` are more than 4 units apart (their squared
distance exceeds 16); hence for every camera position at most one entry is within the
activation radius 2, and a poll gives the same state whatever the order in which it visits
the entries.  `sqrt` is a square root: non-negative, with `sqrt x * sqrt x = x` for
`x ≥ 0`. -/
theorem waypoints_do_not_overlap (sqrt : K → K)
    (hsqrt : ∀ x, 0 ≤ x → 0 ≤ sqrt x ∧ sqrt x * sqrt x = x) :
    (∀ (i j : Nat) (wi wj : Page.Waypoint K),
      (Page.WAYPOINTS : List (Page.Waypoint K))[i]? = some wi →
      (Page.WAYPOINTS : List (Page.Waypoint K))[j]? = some wj → i ≠ j →
      16 < wi.position.distanceToSquared wj.position ∧
      4 < wi.position.distanceTo sqrt wj.position) ∧
    (∀ (p : Vector3 K) (i j : Nat) (wi wj : Page.Waypoint K),
      (Page.WAYPOINTS : List (Page.Waypoint K))[i]? = some wi →
      (Page.WAYPOINTS : List (Page.Waypoint K))[j]? = some wj →
      p.distanceTo sqrt wi.position < 2 → p.distanceTo sqrt wj.position < 2 → i = j) ∧
    (∀ (s : Page.Scene K) (order : List (Nat × Page.Waypoint K)),
      order.Perm (Page.WAYPOINTS : List (Page.Waypoint K)).enum →
      Page.Scene.pollOver sqrt s order = Page.Scene.checkWaypoints sqrt false s) := by
  have hnear : ∀ (p : Vector3 K) (i j : Nat) (wi wj : Page.Waypoint K),
      (Page.WAYPOINTS : List (Page.Waypoint K))[i]? = some wi →
      (Page.WAYPOINTS : List (Page.Waypoint K))[j]? = some wj →
      p.distanceTo sqrt wi.position < 2 → p.distanceTo sqrt wj.position < 2 → i = j := by
    intro p i j wi wj hi hj h1 h2
    by_contra hij
    exact Page.WAYPOINTS_near_unique sqrt (sqrt_lt_two_of_isSqrt sqrt hsqrt) p i j wi wj hi hj
      hij h2 h1
  refine ⟨?_, hnear, ?_⟩
  · intro i j wi wj hi hj hij
    have h := Page.WAYPOINTS_apart i j wi wj hi hj hij
    exact ⟨h, four_lt_sqrt_of_isSqrt sqrt hsqrt _ h⟩
  · intro s order hperm
    have hcheck : Page.Scene.checkWaypoints sqrt false s
        = Page.Scene.pollOver sqrt s (Page.WAYPOINTS : List (Page.Waypoint K)).enum := by
      simp [Page.Scene.checkWaypoints, Page.Scene.pollOver]
    rw [hcheck]
    unfold Page.Scene.pollOver
    by_cases hsome : ∃ e ∈ (Page.WAYPOINTS : List (Page.Waypoint K)).enum,
        s.position.distanceTo sqrt e.2.position < 2 ∧ s.activeWaypoint ≠ some e.1
    · obtain ⟨e0, he0, hc0⟩ := hsome
      have huniq : ∀ e ∈ (Page.WAYPOINTS : List (Page.Waypoint K)).enum,
          (s.position.distanceTo sqrt e.2.position < 2 ∧ s.activeWaypoint ≠ some e.1) →
          e = e0 := by
        intro e he hc
        have h1 := List.mem_enum_iff_getElem?.mp he
        have h2 := List.mem_enum_iff_getElem?.mp he0
        have hidx := hnear s.position e.1 e0.1 e.2 e0.2 h1 h2 hc.1 hc0.1
        rw [hidx, h2] at h1
        exact Prod.ext hidx (Option.some.inj h1).symm
      rw [Page.Scene.foldl_poll_unique sqrt s e0 order
          (fun e he hc => huniq e (hperm.mem_iff.mp he) hc)
          ⟨e0, hperm.mem_iff.mpr he0, hc0⟩,
        Page.Scene.foldl_poll_unique sqrt s e0 _ huniq ⟨e0, he0, hc0⟩]
    · have hnone : ∀ e ∈ (Page.WAYPOINTS : List (Page.Waypoint K)).enum,
          ¬ (s.position.distanceTo sqrt e.2.position < 2 ∧ s.activeWaypoint ≠ some e.1) :=
        fun e he hc => hsome ⟨e, he, hc⟩
      rw [Page.Scene.foldl_poll_none sqrt s order
          (fun e he => hnone e (hperm.mem_iff.mp he)),
        Page.Scene.foldl_poll_none sqrt s _ hnone]

/-- Witness for C24: the two nearest entries, "View Center" and "Overview", are sqrt(34), more
than 4, apart. -/
theorem waypoints_do_not_overlap_witness :
    4 < Vector3.distanceTo Real.sqrt (⟨5, 8 / 5, 5⟩ : Vector3 ℝ) ⟨0, 8 / 5, 8⟩ :=
  ((waypoints_do_not_overlap Real.sqrt
    (fun x hx => ⟨Real.sqrt_nonneg x, Real.mul_self_sqrt hx⟩)).1 0 2
    ⟨⟨5, 8 / 5, 5⟩, ⟨0, 0, 0⟩, "View Center"⟩ ⟨⟨0, 8 / 5, 8⟩, ⟨0, 0, -8⟩, "Overview"⟩
    (by simp [Page.WAYPOINTS]) (by simp [Page.WAYPOINTS]) (by decide)).2

end TableTheorems

end VRNav
